import Mathlib

/-!
Formal model of the skykit-optimizer decision engine.

The TypeScript engine (src/backend/engine) is embedded shallowly:

* JavaScript numbers are modelled by ℚ (all arithmetic in the engine on the
  verified paths is exact decimal/rational arithmetic: additions,
  subtractions, multiplications by decimal literals, `Math.min`/`Math.max`
  and `Math.floor`), except clock values (days, hours, look-ahead windows)
  which the engine only ever holds as integers and which are modelled by ℤ
  (look-ahead loop counts by ℕ).
* JavaScript `Math.floor(x)` is `Int.floor`; `Math.floor(a/b)` on integers
  with positive `b` is `Int.ediv`, and `a % b` for `a ≥ 0 `, `b > 0` (the
  only uses the engine makes of `%` on its clock domain) is `Int.emod`.
* A JavaScript `Map` is an association list with unique keys; `Map.get` is
  first-match lookup, `Map.set` replaces in place or appends, and mutation
  of a value object held in a map is an in-place functional update.
* Class instances (`InventoryManager`, `AdaptiveEngine`) become state
  records, and their mutating methods become functions returning the
  updated record (paired with the method's return value where it has one).
-/

namespace SkyKit

/-- Kit service classes (tiers A–D of the spec): KIT_CLASSES in types.ts. -/
inductive KitClass where
  | first
  | business
  | premiumEconomy
  | economy
deriving DecidableEq, Repr

/-- PerClassAmount from types.ts: four named counters, one per kit class. -/
structure PerClassAmount where
  first : ℚ
  business : ℚ
  premiumEconomy : ℚ
  economy : ℚ
deriving DecidableEq, Repr

/-- KIT_CLASSES iteration order used by every `for (const kitClass of KIT_CLASSES)` loop. -/
def KIT_CLASSES : List KitClass :=
  [KitClass.first, KitClass.business, KitClass.premiumEconomy, KitClass.economy]

/-- Field read `x[kitClass]`. -/
def PerClassAmount.get (p : PerClassAmount) : KitClass → ℚ
  | KitClass.first => p.first
  | KitClass.business => p.business
  | KitClass.premiumEconomy => p.premiumEconomy
  | KitClass.economy => p.economy

/-- Field write `x[kitClass] = v`. -/
def PerClassAmount.set (p : PerClassAmount) : KitClass → ℚ → PerClassAmount
  | KitClass.first, v => { p with first := v }
  | KitClass.business, v => { p with business := v }
  | KitClass.premiumEconomy, v => { p with premiumEconomy := v }
  | KitClass.economy, v => { p with economy := v }

/-- EMPTY_PER_CLASS from types.ts. -/
def EMPTY_PER_CLASS : PerClassAmount := ⟨0, 0, 0, 0⟩

/-- Amount that is `q` in class `c` and zero elsewhere (a single-tier batch). -/
def singleTier (c : KitClass) (q : ℚ) : PerClassAmount := EMPTY_PER_CLASS.set c q

@[simp] theorem PerClassAmount.get_set (p : PerClassAmount) (c c' : KitClass) (v : ℚ) :
    (p.set c v).get c' = if c' = c then v else p.get c' := by
  cases c <;> cases c' <;> simp [PerClassAmount.get, PerClassAmount.set]

theorem PerClassAmount.ext_get {p q : PerClassAmount}
    (h : ∀ c, p.get c = q.get c) : p = q := by
  cases p; cases q
  have h1 := h KitClass.first
  have h2 := h KitClass.business
  have h3 := h KitClass.premiumEconomy
  have h4 := h KitClass.economy
  simp [PerClassAmount.get] at h1 h2 h3 h4
  simp [h1, h2, h3, h4]

@[simp] theorem EMPTY_PER_CLASS_get (c : KitClass) : EMPTY_PER_CLASS.get c = 0 := by
  cases c <;> rfl

@[simp] theorem singleTier_get (c c' : KitClass) (q : ℚ) :
    (singleTier c q).get c' = if c' = c then q else 0 := by
  simp [singleTier]

/-- ReferenceHour from types.ts: a point of the simulated clock. -/
structure ReferenceHour where
  day : ℤ
  hour : ℤ
deriving DecidableEq, Repr

/-- Airport static reference data (loader.ts rows; only the fields the engine reads). -/
structure Airport where
  code : String
  isHub : Bool
  processingTime : PerClassAmount
  processingCost : PerClassAmount
  loadingCost : PerClassAmount
  capacity : PerClassAmount
deriving DecidableEq, Repr

/-- Aircraft type reference data. -/
structure Aircraft where
  typeCode : String
  kitCapacity : PerClassAmount
  costPerKgPerKm : ℚ
deriving DecidableEq, Repr

/-- FlightPlan: one recurring weekly departure-template row. -/
structure FlightPlan where
  departCode : String
  arrivalCode : String
  scheduledHour : ℤ
  distanceKm : ℚ
  weekdays : List Bool
deriving DecidableEq, Repr

/-- FlightEvent from types.ts (a known departure, any lifecycle state). -/
structure FlightEvent where
  eventType : String
  flightNumber : String
  flightId : String
  originAirport : String
  destinationAirport : String
  departure : ReferenceHour
  arrival : ReferenceHour
  passengers : PerClassAmount
  aircraftType : String
  distance : ℚ
deriving DecidableEq, Repr

/-- InFlightKits from engine/types.ts: a batch loaded on a plane, keyed by flight id. -/
structure InFlightKits where
  flightId : String
  destinationAirport : String
  kits : PerClassAmount
  arrivalDay : ℤ
  arrivalHour : ℤ
deriving DecidableEq, Repr

/-- ProcessingKits from engine/types.ts: an arrived batch waiting out processing. -/
structure ProcessingKits where
  airportCode : String
  kits : PerClassAmount
  readyDay : ℤ
  readyHour : ℚ
deriving DecidableEq, Repr

/-- First-match lookup in an association list (JS `Map.get`). -/
def lookupAssoc {α : Type} : List (String × α) → String → Option α
  | [], _ => none
  | e :: rest, k => if e.1 = k then some e.2 else lookupAssoc rest k

/-- In-place update of the value object held at key `k` (JS object mutation through a Map). -/
def updateAssoc {α : Type} (l : List (String × α)) (k : String) (f : α → α) :
    List (String × α) :=
  l.map fun e => if e.1 = k then (e.1, f e.2) else e

/-- JS `Map.set`: replace the entry if present, append otherwise. -/
def setAssoc {α : Type} (l : List (String × α)) (k : String) (v : α) :
    List (String × α) :=
  if l.any fun e => e.1 == k then
    l.map fun e => if e.1 = k then (k, v) else e
  else
    l ++ [(k, v)]

theorem lookupAssoc_updateAssoc {α : Type} (l : List (String × α)) (k k' : String)
    (f : α → α) :
    lookupAssoc (updateAssoc l k f) k' =
      if k' = k then (lookupAssoc l k').map f else lookupAssoc l k' := by
  induction l with
  | nil => simp only [updateAssoc, List.map_nil, lookupAssoc]; split <;> rfl
  | cons e rest ih =>
    by_cases hek : e.1 = k
    · by_cases hk' : k' = k
      · subst hk'
        simp [updateAssoc, lookupAssoc, hek]
      · have hne : ¬ e.1 = k' := fun h => hk' (by rw [← h]; exact hek)
        simp only [updateAssoc, List.map_cons, if_pos hek, lookupAssoc, if_neg hne]
        simpa [updateAssoc, hk'] using ih
    · by_cases hk' : e.1 = k'
      · have hkk : ¬ k' = k := fun h => hek (by rw [hk', h])
        simp [updateAssoc, lookupAssoc, hek, hk', hkk]
      · simp only [updateAssoc, List.map_cons, if_neg hek, lookupAssoc, if_neg hk']
        simpa [updateAssoc] using ih

/-- InventoryManager state (inventory.ts): stocks, static airports, in-flight map, processing queue. -/
structure InventoryManager where
  airportStocks : List (String × PerClassAmount)
  airports : List (String × Airport)
  inFlightKits : List InFlightKits
  processingKits : List ProcessingKits
deriving DecidableEq, Repr

/-- getStock from inventory.ts. -/
def getStock (inv : InventoryManager) (airportCode : String) : Option PerClassAmount :=
  lookupAssoc inv.airportStocks airportCode

/-- getAirport from inventory.ts. -/
def getAirport (inv : InventoryManager) (airportCode : String) : Option Airport :=
  lookupAssoc inv.airports airportCode

/-- Lookup of `this.inFlightKits.get(flightId)`. -/
def findInFlight (inv : InventoryManager) (flightId : String) : Option InFlightKits :=
  inv.inFlightKits.find? fun b => b.flightId == flightId

/-- getInFlightKitsToAirport from inventory.ts: total kits of a class in-flight to an airport. -/
def getInFlightKitsToAirport (inv : InventoryManager) (airportCode : String)
    (kitClass : KitClass) : ℚ :=
  (inv.inFlightKits.map fun b =>
    if b.destinationAirport = airportCode then b.kits.get kitClass else 0).sum

/-- getProcessingKitsAtAirport from inventory.ts: total kits of a class processing at an airport. -/
def getProcessingKitsAtAirport (inv : InventoryManager) (airportCode : String)
    (kitClass : KitClass) : ℚ :=
  (inv.processingKits.map fun p =>
    if p.airportCode = airportCode then p.kits.get kitClass else 0).sum

/-- Map.set on the in-flight map keyed by flight id. -/
def setInFlight (l : List InFlightKits) (e : InFlightKits) : List InFlightKits :=
  if l.any fun b => b.flightId == e.flightId then
    l.map fun b => if b.flightId = e.flightId then e else b
  else
    l ++ [e]

/-- trackInFlightKits from inventory.ts (the `copyPerClass` value copy is implicit here). -/
def trackInFlightKits (inv : InventoryManager) (flightId destinationAirport : String)
    (kits : PerClassAmount) (arrivalDay arrivalHour : ℤ) : InventoryManager :=
  { inv with inFlightKits :=
      setInFlight inv.inFlightKits ⟨flightId, destinationAirport, kits, arrivalDay, arrivalHour⟩ }

/-- deductStock from inventory.ts: returns the success flag paired with the updated state.
The `console.error` on the reject path is a log only; no exception escapes. -/
def deductStock (inv : InventoryManager) (airportCode : String) (kitClass : KitClass)
    (amount : ℚ) : Bool × InventoryManager :=
  match getStock inv airportCode with
  | none => (false, inv)
  | some stock =>
    if stock.get kitClass < amount then (false, inv)
    else
      (true, { inv with airportStocks :=
        (updateAssoc inv.airportStocks airportCode
          fun st => st.set kitClass (st.get kitClass - amount)) })

/-- addStock from inventory.ts: returns how many kits were actually added, with the state. -/
def addStock (inv : InventoryManager) (airportCode : String) (kitClass : KitClass)
    (amount : ℚ) : ℚ × InventoryManager :=
  match getStock inv airportCode with
  | none => (0, inv)
  | some stock =>
    match getAirport inv airportCode with
    | some airport =>
      let toAdd := min amount (max 0 (airport.capacity.get kitClass - stock.get kitClass))
      (toAdd, { inv with airportStocks :=
        (updateAssoc inv.airportStocks airportCode
          fun st => st.set kitClass (st.get kitClass + toAdd)) })
    | none =>
      (amount, { inv with airportStocks :=
        (updateAssoc inv.airportStocks airportCode
          fun st => st.set kitClass (st.get kitClass + amount)) })

/-- setStock from inventory.ts: force-set a stock value, clamped below at 0 only. -/
def setStock (inv : InventoryManager) (airportCode : String) (kitClass : KitClass)
    (value : ℚ) : InventoryManager :=
  match getStock inv airportCode with
  | none => inv
  | some _ =>
    { inv with airportStocks :=
        (updateAssoc inv.airportStocks airportCode
          fun st => st.set kitClass (max 0 value)) }

/-- Per-class body of the capacity-clamped folds in processReadyKits / processLandedFlight:
`toAdd = Math.min(kits, capacity - stock); stock += Math.max(0, toAdd)`. -/
def clampedAdd (capacity stock amt : ℚ) : ℚ := stock + max 0 (min amt (capacity - stock))

/-- Fold of a whole batch into a stock record, one class at a time, exactly as the
`for (const kitClass of KIT_CLASSES)` loops of processReadyKits / processLandedFlight do:
clamped to capacity when the airport is known, unclamped otherwise. -/
def addBatchToStock (airport : Option Airport) (st kits : PerClassAmount) : PerClassAmount :=
  match airport with
  | some a =>
    ⟨clampedAdd a.capacity.first st.first kits.first,
     clampedAdd a.capacity.business st.business kits.business,
     clampedAdd a.capacity.premiumEconomy st.premiumEconomy kits.premiumEconomy,
     clampedAdd a.capacity.economy st.economy kits.economy⟩
  | none =>
    ⟨st.first + kits.first, st.business + kits.business,
     st.premiumEconomy + kits.premiumEconomy, st.economy + kits.economy⟩

/-- Readiness test of processReadyKits:
`(currentDay > readyDay) || (currentDay === readyDay && currentHour >= readyHour)`. -/
def batchIsReady (currentDay currentHour : ℤ) (p : ProcessingKits) : Prop :=
  p.readyDay < currentDay ∨ (currentDay = p.readyDay ∧ p.readyHour ≤ (currentHour : ℚ))

instance (currentDay currentHour : ℤ) (p : ProcessingKits) :
    Decidable (batchIsReady currentDay currentHour p) := by
  unfold batchIsReady; infer_instance

/-- Loop of processReadyKits over the processing queue, threading the stocks map and
accumulating the `stillProcessing` list in order. -/
def foldReady (airports : List (String × Airport)) (currentDay currentHour : ℤ) :
    List ProcessingKits → List (String × PerClassAmount) →
      List (String × PerClassAmount) × List ProcessingKits
  | [], stocks => (stocks, [])
  | p :: rest, stocks =>
    if batchIsReady currentDay currentHour p then
      let stocks' :=
        match lookupAssoc stocks p.airportCode with
        | none => stocks
        | some _ =>
          updateAssoc stocks p.airportCode
            fun st => addBatchToStock (lookupAssoc airports p.airportCode) st p.kits
      foldReady airports currentDay currentHour rest stocks'
    else
      ((foldReady airports currentDay currentHour rest stocks).1,
        p :: (foldReady airports currentDay currentHour rest stocks).2)

/-- processReadyKits from inventory.ts: fold every ready batch into stock
(capacity-clamped) and keep the rest queued. -/
def processReadyKits (inv : InventoryManager) (currentDay currentHour : ℤ) :
    InventoryManager :=
  { inv with
      airportStocks :=
        (foldReady inv.airports currentDay currentHour inv.processingKits inv.airportStocks).1,
      processingKits :=
        (foldReady inv.airports currentDay currentHour inv.processingKits inv.airportStocks).2 }

/-- Worst-case per-class processing duration of an airport:
`Math.max(processingTime.first, .business, .premiumEconomy, .economy)`. -/
def maxProcessingTimeOf (airport : Airport) : ℚ :=
  max (max airport.processingTime.first airport.processingTime.business)
      (max airport.processingTime.premiumEconomy airport.processingTime.economy)

/-- Ready-time of a landed batch: `readyHour = arrival.hour + maxProcessingTime` followed by
the `while (readyHour >= 24) { readyHour -= 24; readyDay++ }` normalisation, in closed form. -/
def normalizeReady (arrivalDay : ℤ) (rh : ℚ) : ℤ × ℚ :=
  if 24 ≤ rh then (arrivalDay + ⌊rh / 24⌋, rh - 24 * (⌊rh / 24⌋ : ℤ)) else (arrivalDay, rh)

/-- processLandedFlight from inventory.ts: resolve an arrival, folding the matching
in-flight batch into stock directly (hub or fast processing, capacity-clamped;
unclamped when the airport is unknown) or enqueueing it for processing, then
removing it from the in-flight map.  Unknown flight ids are a no-op. -/
def processLandedFlight (inv : InventoryManager) (event : FlightEvent) : InventoryManager :=
  match findInFlight inv event.flightId with
  | none => inv
  | some inflight =>
    let inv' :=
      match getAirport inv event.destinationAirport with
      | some airport =>
        let maxProcessingTime := maxProcessingTimeOf airport
        let ready := normalizeReady event.arrival.day ((event.arrival.hour : ℚ) + maxProcessingTime)
        if airport.isHub ∨ maxProcessingTime ≤ 2 then
          match getStock inv event.destinationAirport with
          | none => inv
          | some _ =>
            { inv with airportStocks :=
                (updateAssoc inv.airportStocks event.destinationAirport
                  fun st => addBatchToStock (some airport) st inflight.kits) }
        else
          { inv with processingKits :=
              inv.processingKits ++
                [ProcessingKits.mk event.destinationAirport inflight.kits ready.1 ready.2] }
      | none =>
        match getStock inv event.destinationAirport with
        | none => inv
        | some _ =>
          { inv with airportStocks :=
              (updateAssoc inv.airportStocks event.destinationAirport
                fun st => addBatchToStock none st inflight.kits) }
    { inv' with inFlightKits := inv'.inFlightKits.filter fun b => ¬ b.flightId = event.flightId }

/-- getTypicalDemandEstimate from forecasting.ts. -/
def getTypicalDemandEstimate : KitClass → ℚ
  | KitClass.first => 10
  | KitClass.business => 50
  | KitClass.premiumEconomy => 25
  | KitClass.economy => 250

/-- Weekday lookup `plan.weekdays[checkDay % 7]` (falsy when out of range); the engine's
clock days are non-negative, where JS remainder agrees with `Int.emod`. -/
def weekdayAt (p : FlightPlan) (checkDay : ℤ) : Bool :=
  p.weekdays.getD (checkDay % 7).toNat false

/-- Match test of the recurring-template loop in calculateDemandForAirport:
location, scheduled hour and weekday all agree. -/
def planMatchesAt (p : FlightPlan) (airportCode : String) (checkDay checkHour : ℤ) : Bool :=
  p.departCode == airportCode && p.scheduledHour == checkHour && weekdayAt p checkDay

/-- Recurring-template loop of calculateDemandForAirport: `withinHours` iterations
starting at (checkDay, checkHour), advancing the hour with day rollover. -/
def templateLoop (flightPlans : List FlightPlan) (airportCode : String) (kitClass : KitClass) :
    ℤ → ℤ → ℕ → ℚ
  | _, _, 0 => 0
  | checkDay, checkHour, Nat.succ n =>
    (flightPlans.map fun p =>
      if planMatchesAt p airportCode checkDay checkHour then getTypicalDemandEstimate kitClass
      else 0).sum +
    (if 24 ≤ checkHour + 1 then templateLoop flightPlans airportCode kitClass (checkDay + 1) 0 n
     else templateLoop flightPlans airportCode kitClass checkDay (checkHour + 1) n)

/-- Known-flights window test of calculateDemandForAirport: the flight departs from the
airport, no later than the window end and no earlier than now. -/
def flightInDemandWindow (f : FlightEvent) (airportCode : String)
    (currentDay currentHour targetDay targetHour : ℤ) : Prop :=
  f.originAirport = airportCode ∧
    (f.departure.day < targetDay ∨ (f.departure.day = targetDay ∧ f.departure.hour ≤ targetHour)) ∧
    (currentDay < f.departure.day ∨ (f.departure.day = currentDay ∧ currentHour ≤ f.departure.hour))

instance (f : FlightEvent) (airportCode : String) (a b c d : ℤ) :
    Decidable (flightInDemandWindow f airportCode a b c d) := by
  unfold flightInDemandWindow; infer_instance

/-- calculateDemandForAirport from forecasting.ts: passengers of every known flight
departing from the airport inside the window, plus the recurring-template estimates,
added without any deduplication. -/
def calculateDemandForAirport (flightPlans : List FlightPlan) (airportCode : String)
    (currentDay currentHour : ℤ) (withinHours : ℕ) (kitClass : KitClass)
    (knownFlights : List FlightEvent) : ℚ :=
  let targetDay := currentDay + (currentHour + withinHours) / 24
  let targetHour := (currentHour + withinHours) % 24
  (knownFlights.map fun f =>
    if flightInDemandWindow f airportCode currentDay currentHour targetDay targetHour then
      f.passengers.get kitClass
    else 0).sum +
  templateLoop flightPlans airportCode kitClass currentDay currentHour withinHours

/-- getFlightDistance from forecasting.ts: distance of the first template row on the route. -/
def getFlightDistance (flightPlans : List FlightPlan) (origin destination : String) : ℚ :=
  match flightPlans.find? fun p => p.departCode == origin && p.arrivalCode == destination with
  | some p => p.distanceKm
  | none => 0

/-- PurchaseConfig from engine/types.ts. -/
structure PurchaseConfig where
  thresholds : PerClassAmount
  emergencyThresholds : PerClassAmount
  maxPerOrder : PerClassAmount
  maxTotalPurchase : PerClassAmount
  apiLimits : PerClassAmount
  purchaseInterval : ℤ
  demandBuffer : ℚ
  forecastHours : ℕ
deriving DecidableEq, Repr

/-- DEFAULT_PURCHASE_CONFIG from engine/types.ts. -/
def DEFAULT_PURCHASE_CONFIG : PurchaseConfig :=
  { thresholds := ⟨1800, 6000, 4000, 70000⟩
    emergencyThresholds := ⟨400, 2000, 400, 10000⟩
    maxPerOrder := ⟨1000, 3000, 1000, 15000⟩
    maxTotalPurchase := ⟨50000, 100000, 30000, 200000⟩
    apiLimits := ⟨42000, 42000, 3000, 42000⟩
    purchaseInterval := 6
    demandBuffer := 1
    forecastHours := 48 }

/-- Hard-coded per-class lead times (hours) of calculatePurchaseOrder. -/
def LEAD_TIMES : KitClass → ℤ
  | KitClass.first => 48
  | KitClass.business => 36
  | KitClass.premiumEconomy => 24
  | KitClass.economy => 12

/-- Expected hub total of calculatePurchaseForClass:
`currentStock + inFlight + processing + alreadyPurchased`. -/
def totalExpectedFor (inv : InventoryManager) (totalPurchased hubStock : PerClassAmount)
    (kitClass : KitClass) : ℚ :=
  hubStock.get kitClass + getInFlightKitsToAirport inv "HUB1" kitClass +
    getProcessingKitsAtAirport inv "HUB1" kitClass + totalPurchased.get kitClass

/-- Regular-mode deficit of calculatePurchaseForClass:
`Math.max(0, demand * demandBuffer - totalExpected)`. -/
def purchaseDeficit (config : PurchaseConfig) (flightPlans : List FlightPlan)
    (kitClass : KitClass) (currentDay currentHour : ℤ) (knownFlights : List FlightEvent)
    (totalExpected : ℚ) : ℚ :=
  max 0
    (calculateDemandForAirport flightPlans "HUB1" currentDay currentHour config.forecastHours
        kitClass knownFlights * config.demandBuffer - totalExpected)

/-- calculatePurchaseForClass from purchasing.ts.  The early-game block runs first
(day 0–2, stock below half capacity, positive amount), then the emergency block,
then the interval-gated regular purchase with its `toPurchase > 100` gate. -/
def calculatePurchaseForClass (config : PurchaseConfig) (flightPlans : List FlightPlan)
    (hubAirport : Airport) (inv : InventoryManager) (totalPurchased hubStock : PerClassAmount)
    (kitClass : KitClass) (currentDay currentHour : ℤ)
    (knownFlights : List FlightEvent) : ℚ :=
  let currentStock := hubStock.get kitClass
  let totalExpected := totalExpectedFor inv totalPurchased hubStock kitClass
  let capacity := hubAirport.capacity.get kitClass
  let maxRoom := max 0 (capacity - totalExpected)
  if maxRoom ≤ 0 then 0
  else
    let maxToBuy := config.maxTotalPurchase.get kitClass - totalPurchased.get kitClass
    let earlyGameAmount :=
      min (config.maxPerOrder.get kitClass) (min maxToBuy (min (config.apiLimits.get kitClass) maxRoom))
    if currentDay ≤ 2 ∧ currentStock < capacity * (1/2) ∧ 0 < earlyGameAmount then
      earlyGameAmount
    else if currentStock < config.emergencyThresholds.get kitClass then
      let emergencyAmount :=
        min (config.thresholds.get kitClass) (min maxToBuy (min (config.apiLimits.get kitClass) maxRoom))
      if 0 < emergencyAmount then emergencyAmount else 0
    else
      let purchaseInterval := if currentDay < 2 then 2 else config.purchaseInterval
      if ¬ currentHour % purchaseInterval = 0 then 0
      else if config.thresholds.get kitClass ≤ totalExpected then 0
      else
        let deficit :=
          purchaseDeficit config flightPlans kitClass currentDay currentHour knownFlights
            totalExpected
        let toPurchase :=
          min deficit (min (config.maxPerOrder.get kitClass)
            (min maxToBuy (min (config.apiLimits.get kitClass) maxRoom)))
        if 100 < toPurchase then toPurchase else 0

/-- calculatePurchaseOrder from purchasing.ts: skip classes whose lead time no longer
fits before the end of the run (day 29, hour 23), collect the positive per-class
amounts, return the order (`undefined` when nothing is ordered) together with the
updated totals. -/
def calculatePurchaseOrder (config : PurchaseConfig) (flightPlans : List FlightPlan)
    (hubAirport : Option Airport) (inv : InventoryManager) (totalPurchased : PerClassAmount)
    (currentDay currentHour : ℤ) (knownFlights : List FlightEvent) :
    Option PerClassAmount × PerClassAmount :=
  match getStock inv "HUB1", hubAirport with
  | some hubStock, some hub =>
    let hoursRemaining := (29 - currentDay) * 24 + (23 - currentHour)
    let amountFor : KitClass → ℚ := fun c =>
      if hoursRemaining < LEAD_TIMES c then 0
      else
        let a := calculatePurchaseForClass config flightPlans hub inv totalPurchased hubStock c
          currentDay currentHour knownFlights
        if 0 < a then a else 0
    let order : PerClassAmount :=
      ⟨amountFor KitClass.first, amountFor KitClass.business,
       amountFor KitClass.premiumEconomy, amountFor KitClass.economy⟩
    let newTotals : PerClassAmount :=
      ⟨totalPurchased.first + order.first, totalPurchased.business + order.business,
       totalPurchased.premiumEconomy + order.premiumEconomy,
       totalPurchased.economy + order.economy⟩
    if 0 < order.first ∨ 0 < order.business ∨ 0 < order.premiumEconomy ∨ 0 < order.economy then
      (some order, newTotals)
    else
      (none, totalPurchased)
  | _, _ => (none, totalPurchased)

/-- Penalty classification of adaptive.ts (classifyPenalty). -/
inductive PenaltyType where
  | inventoryExceedsCapacity
  | flightUnfulfilled
  | negativeInventory
deriving DecidableEq, Repr

/-- classifyPenalty from adaptive.ts: anything that is not a capacity or
negative-inventory code counts as FLIGHT_UNFULFILLED. -/
def classifyPenalty (code : String) : PenaltyType :=
  if code = "INVENTORY_EXCEEDS_CAPACITY" then PenaltyType.inventoryExceedsCapacity
  else if code = "NEGATIVE_INVENTORY" then PenaltyType.negativeInventory
  else PenaltyType.flightUnfulfilled

/-- PenaltyRecord from adaptive.ts, after classifyPenalty/parseReason: the free-text
regex parse of `reason` is represented by its result, the optional airport code and
kit class. -/
structure PenaltyRecord where
  day : ℤ
  hour : ℤ
  ptype : PenaltyType
  amount : ℚ
  airportCode : Option String
  kitClass : Option KitClass
deriving DecidableEq, Repr

/-- AirportPerformance from adaptive.ts. -/
structure AirportPerformance where
  overflowCount : ℤ
  unfulfilledCount : ℤ
  lastOverflowDay : ℤ
  riskScore : ℚ
deriving DecidableEq, Repr

/-- Lazily created default performance entry (riskScore 0.5). -/
def defaultPerformance : AirportPerformance := ⟨0, 0, -1, 1/2⟩

/-- updateAirportPerformance from adaptive.ts, for a record whose airport code parsed to
`code`: overflow raises risk by 0.1 (capped at 1.0), under-fulfillment lowers it by 0.02
(floored at 0.1), and the 0.99 decay is applied on every update of the entry. -/
def updateAirportPerformance (perfs : List (String × AirportPerformance))
    (record : PenaltyRecord) (code : String) : List (String × AirportPerformance) :=
  let perf := (lookupAssoc perfs code).getD defaultPerformance
  let perf1 :=
    match record.ptype with
    | PenaltyType.inventoryExceedsCapacity =>
      { perf with overflowCount := perf.overflowCount + 1
                  lastOverflowDay := record.day
                  riskScore := min 1 (perf.riskScore + 1/10) }
    | PenaltyType.flightUnfulfilled =>
      { perf with unfulfilledCount := perf.unfulfilledCount + 1
                  riskScore := max (1/10) (perf.riskScore - 1/50) }
    | PenaltyType.negativeInventory => perf
  let perf2 := { perf1 with riskScore := perf1.riskScore * (99/100) }
  setAssoc perfs code perf2

/-- Per-airport part of recordPenalties from adaptive.ts for one round's penalty list:
updateAirportPerformance runs once per record that parsed to an airport code.  (The
rolling penalty history and analyzeAndAdapt are intentionally inert: mode switching is
disabled in the source, so they never touch the per-airport state.) -/
def recordPenaltyRound (perfs : List (String × AirportPerformance))
    (records : List PenaltyRecord) : List (String × AirportPerformance) :=
  records.foldl
    (fun m r =>
      match r.airportCode with
      | some code => updateAirportPerformance m r code
      | none => m)
    perfs

/-- getAirportRiskScore from adaptive.ts (0.5 when the airport has no entry). -/
def getAirportRiskScore (perfs : List (String × AirportPerformance)) (code : String) : ℚ :=
  ((lookupAssoc perfs code).map fun p => p.riskScore).getD (1/2)

/-- AdaptiveEngine state: per-airport performance plus the (statically constant, the
mode-switching that would change them is disabled) global buffer knobs. -/
structure AdaptiveEngine where
  airportPerformance : List (String × AirportPerformance)
  bufferMultiplier : ℚ
  economyBufferBoost : ℚ
deriving DecidableEq, Repr

/-- Freshly constructed AdaptiveEngine. -/
def AdaptiveEngine.init : AdaptiveEngine := ⟨[], 1, 0⟩

/-- getBufferPercent from adaptive.ts: the base buffer scaled by the global multiplier,
reduced for economy and for high-risk destinations, clamped to [0.5, 0.95]. -/
def getBufferPercent (eng : AdaptiveEngine) (destinationAirport : String)
    (kitClass : KitClass) (baseBuffer : ℚ) : ℚ :=
  let buffer := baseBuffer * eng.bufferMultiplier
  let buffer := if kitClass = KitClass.economy then buffer - eng.economyBufferBoost else buffer
  let buffer :=
    match lookupAssoc eng.airportPerformance destinationAirport with
    | some perf =>
      if 7/10 < perf.riskScore then buffer - (perf.riskScore - 7/10) * (1/10) else buffer
    | none => buffer
  max (1/2) (min (19/20) buffer)

/-- LoadingConfig from engine/types.ts. -/
structure LoadingConfig where
  safetyBufferHub : ℚ
  safetyBufferSpoke : ℚ
  destinationForecastHours : ℕ
  enableExtraLoadingToSpokes : Bool
  enableReturnToHub : Bool
deriving DecidableEq, Repr

/-- DEFAULT_LOADING_CONFIG from engine/types.ts. -/
def DEFAULT_LOADING_CONFIG : LoadingConfig := ⟨100, 20, 24, true, true⟩

/-- FlightLoadDto from types.ts: the per-departure decision payload. -/
structure FlightLoadDto where
  flightId : String
  loadedKits : PerClassAmount
deriving DecidableEq, Repr

/-- calculateEconomyLoadFactorForFlight from flightLoader.ts: route economics mapped to a
load factor in [0.70, 0.90].  (A non-positive total cost makes the JS ratio infinite,
branching to 0.90; the engine's reference costs are positive, keeping this model on the
same branch as the source everywhere it is exercised.) -/
def calculateEconomyLoadFactorForFlight (inv : InventoryManager)
    (flightPlans : List FlightPlan) (aircraftTypes : List (String × Aircraft))
    (flight : FlightEvent) : ℚ :=
  let distance := getFlightDistance flightPlans flight.originAirport flight.destinationAirport
  let loadingCost :=
    ((getAirport inv flight.originAirport).map fun a => a.loadingCost.economy).getD 2
  let fuelRate :=
    ((lookupAssoc aircraftTypes flight.aircraftType).map fun a => a.costPerKgPerKm).getD (1/1000)
  let movementCost := distance * fuelRate * (3/2)
  let processingCost :=
    ((getAirport inv flight.destinationAirport).map fun a => a.processingCost.economy).getD 4
  let totalCost := loadingCost + movementCost + processingCost
  let penaltyPerKit := (3/1000) * distance * 50
  let ratio := penaltyPerKit / totalCost
  if 80 ≤ ratio then 9/10
  else if 50 ≤ ratio then 17/20
  else if 30 ≤ ratio then 4/5
  else if 15 ≤ ratio then 3/4
  else 7/10

/-- Per-class penalty weights of calculatePenaltyExposure. -/
def penaltyFactor : KitClass → ℚ
  | KitClass.first => 1/100
  | KitClass.business => 3/500
  | KitClass.premiumEconomy => 1/250
  | KitClass.economy => 3/1000

/-- calculatePenaltyExposure from flightLoader.ts:
`sum(passengers[class] * distance * factor[class])`. -/
def calculatePenaltyExposure (flightPlans : List FlightPlan) (flight : FlightEvent) : ℚ :=
  let distance := getFlightDistance flightPlans flight.originAirport flight.destinationAirport
  (KIT_CLASSES.map fun c => flight.passengers.get c * distance * penaltyFactor c).sum

/-- Comparator of sortFlightsByPriority as a should-come-no-later test: HUB1 departures
first, then descending penalty exposure. -/
def flightPriorLE (flightPlans : List FlightPlan) (a b : FlightEvent) : Bool :=
  if a.originAirport = "HUB1" ∧ ¬ b.originAirport = "HUB1" then true
  else if b.originAirport = "HUB1" ∧ ¬ a.originAirport = "HUB1" then false
  else decide (calculatePenaltyExposure flightPlans b ≤ calculatePenaltyExposure flightPlans a)

/-- Insertion step of the comparator sort. -/
def insertByLE {α : Type} (le : α → α → Bool) (x : α) : List α → List α
  | [] => [x]
  | y :: ys => if le x y then x :: y :: ys else y :: insertByLE le x ys

/-- Comparator sort (the JS `Array.sort` call, modelled as insertion sort on the same
comparator; any comparator sort is a permutation, which is all the engine relies on). -/
def sortByLE {α : Type} (le : α → α → Bool) (l : List α) : List α :=
  l.foldr (insertByLE le) []

theorem length_insertByLE {α : Type} (le : α → α → Bool) (x : α) (l : List α) :
    (insertByLE le x l).length = l.length + 1 := by
  induction l with
  | nil => rfl
  | cons y ys ih =>
    by_cases h : le x y = true
    · simp [insertByLE, h]
    · simp [insertByLE, h, ih]

theorem length_sortByLE {α : Type} (le : α → α → Bool) (l : List α) :
    (sortByLE le l).length = l.length := by
  induction l with
  | nil => rfl
  | cons y ys ih => simp [sortByLE, length_insertByLE, List.foldr] at *; omega

/-- calculateExtraKitsForDestination from flightLoader.ts: deficit-driven extra kits
for HUB1-to-spoke flights, with saturation, room and hard-cap checks; economy is
excluded entirely. -/
def calculateExtraKitsForDestination (inv : InventoryManager)
    (flightPlans : List FlightPlan) (config : LoadingConfig) (flight : FlightEvent)
    (kitClass : KitClass) (alreadyLoaded available capacity : ℚ)
    (currentDay currentHour : ℤ) (knownFlights : List FlightEvent) : ℚ :=
  match getStock inv flight.destinationAirport, getAirport inv flight.destinationAirport with
  | some destStock, some destAirport =>
    let remainingHours := max 0 ((29 - currentDay) * 24 + (23 - currentHour))
    if remainingHours < 12 then 0
    else
      let forecastHours := min config.destinationForecastHours remainingHours.toNat
      let destDemand :=
        calculateDemandForAirport flightPlans flight.destinationAirport currentDay currentHour
          forecastHours kitClass knownFlights
      let destCurrent := destStock.get kitClass
      let inFlightToDestination := getInFlightKitsToAirport inv flight.destinationAirport kitClass
      let processingAtDest := getProcessingKitsAtAirport inv flight.destinationAirport kitClass
      let destExpected := destCurrent + inFlightToDestination + processingAtDest
      let destDeficit := max 0 (destDemand - destExpected)
      let destCapacity := destAirport.capacity.get kitClass
      let totalAtDest := destCurrent + inFlightToDestination + processingAtDest
      let destRoom := max 0 (destCapacity - totalAtDest)
      if kitClass = KitClass.economy then 0
      else
        let saturationThreshold : ℚ := if kitClass = KitClass.premiumEconomy then 3/4 else 17/20
        let roomCheckThreshold : ℚ := if kitClass = KitClass.premiumEconomy then 3/10 else 1/5
        let maxExtraPercent : ℚ := if kitClass = KitClass.premiumEconomy then 1/50 else 1/20
        if destCapacity * saturationThreshold < totalAtDest then 0
        else if destRoom < destCapacity * roomCheckThreshold then 0
        else
          let remainingCapacity := capacity - alreadyLoaded
          let remainingStock := available - alreadyLoaded
          let maxExtraByCapacity : ℚ := (⌊destCapacity * maxExtraPercent⌋ : ℤ)
          let maxExtraByRoom : ℚ := (⌊destRoom * (3/10)⌋ : ℤ)
          min destDeficit (min maxExtraByCapacity (min maxExtraByRoom
            (min destRoom (min remainingCapacity remainingStock))))
  | _, _ => 0

/-- calculateExtraKitsForHubReturn from flightLoader.ts: surplus (or, in the end game,
everything that fits) returned on spoke-to-HUB1 flights, bounded by HUB1 headroom. -/
def calculateExtraKitsForHubReturn (inv : InventoryManager)
    (flightPlans : List FlightPlan) (config : LoadingConfig) (flight : FlightEvent)
    (kitClass : KitClass) (alreadyLoaded available capacity : ℚ)
    (currentDay currentHour : ℤ) (knownFlights : List FlightEvent)
    (isEndGame : Bool) : ℚ :=
  match getStock inv "HUB1", getAirport inv "HUB1" with
  | some hubStock, some hubAirport =>
    let hubExpected := hubStock.get kitClass + getInFlightKitsToAirport inv "HUB1" kitClass +
      getProcessingKitsAtAirport inv "HUB1" kitClass
    let hubRoom := max 0 (hubAirport.capacity.get kitClass - hubExpected)
    let remainingCapacity := capacity - alreadyLoaded
    if isEndGame then min remainingCapacity (min (available - alreadyLoaded) hubRoom)
    else
      let upcomingDemand :=
        calculateDemandForAirport flightPlans flight.originAirport currentDay currentHour
          config.destinationForecastHours kitClass knownFlights
      let currentStock := available - alreadyLoaded
      let surplus := max 0 (currentStock - upcomingDemand)
      if 0 < surplus ∧ 0 < hubRoom then min remainingCapacity (min surplus hubRoom) else 0
  | _, _ => 0

/-- calculateKitsToLoad from flightLoader.ts: passenger demand scaled by the per-class
load factor, clamped to available stock minus the safety buffer and to vehicle capacity,
clamped against adaptive destination headroom, then (outside the last-day and early-game
regimes) extended by the extra-loading optimizations, and finally never allowed past the
raw on-hand stock. -/
def calculateKitsToLoad (inv : InventoryManager) (flightPlans : List FlightPlan)
    (aircraftTypes : List (String × Aircraft)) (eng : AdaptiveEngine)
    (config : LoadingConfig) (flight : FlightEvent) (kitClass : KitClass)
    (originStock : PerClassAmount) (aircraft : Aircraft)
    (currentDay currentHour : ℤ) (knownFlights : List FlightEvent)
    (isEndGame isNearEnd isLastDay isEarlyGame : Bool) : ℚ :=
  let economyFactor :=
    if kitClass = KitClass.economy then
      calculateEconomyLoadFactorForFlight inv flightPlans aircraftTypes flight
    else 1
  let rawDemand := flight.passengers.get kitClass
  let demand : ℚ := (⌊rawDemand * economyFactor⌋ : ℤ)
  let rawAvailable := originStock.get kitClass
  let isHub := flight.originAirport = "HUB1"
  let airportCapacity :=
    ((getAirport inv flight.originAirport).map fun a => a.capacity.get kitClass).getD 1000
  let bufferConfig := if isHub then config.safetyBufferHub else config.safetyBufferSpoke
  let baseBuffer : ℚ :=
    if bufferConfig < 1 then max 5 ((⌊airportCapacity * bufferConfig⌋ : ℤ) : ℚ)
    else bufferConfig
  let earlyGameBuffer : ℚ := max 500 ((⌊airportCapacity * (1/20)⌋ : ℤ) : ℚ)
  let safetyBuffer := if isHub ∧ isEarlyGame then earlyGameBuffer else baseBuffer
  let available := max 0 (rawAvailable - safetyBuffer)
  let capacity := aircraft.kitCapacity.get kitClass
  let toLoad0 := min demand (min available capacity)
  let toLoad1 :=
    match getStock inv flight.destinationAirport, getAirport inv flight.destinationAirport with
    | some destStock, some destAirport =>
      let destCapacity := destAirport.capacity.get kitClass
      let destInFlight := getInFlightKitsToAirport inv flight.destinationAirport kitClass
      let destTotal := destStock.get kitClass + destInFlight
      let destBaseBuffer : ℚ :=
        if flight.destinationAirport = "HUB1" then 19/20
        else if kitClass = KitClass.economy then 7/10
        else if kitClass = KitClass.premiumEconomy then 4/5
        else 17/20
      let bufferPercent := getBufferPercent eng flight.destinationAirport kitClass destBaseBuffer
      let destRoom := max 0 (destCapacity * bufferPercent - destTotal)
      if destRoom < toLoad0 then max 0 destRoom else toLoad0
    | _, _ => toLoad0
  if isLastDay then min toLoad1 rawAvailable
  else if isEarlyGame ∧ flight.originAirport = "HUB1" then min toLoad1 rawAvailable
  else
    let toLoad2 :=
      if config.enableExtraLoadingToSpokes ∧ flight.originAirport = "HUB1" ∧
          toLoad1 < capacity ∧ toLoad1 < available ∧ ¬ isNearEnd then
        toLoad1 + calculateExtraKitsForDestination inv flightPlans config flight kitClass
          toLoad1 available capacity currentDay currentHour knownFlights
      else toLoad1
    let toLoad3 :=
      if config.enableReturnToHub ∧ flight.destinationAirport = "HUB1" ∧
          toLoad2 < capacity ∧ toLoad2 < available then
        toLoad2 + calculateExtraKitsForHubReturn inv flightPlans config flight kitClass
          toLoad2 available capacity currentDay currentHour knownFlights isEndGame
      else toLoad2
    let toLoad4 := if rawAvailable < toLoad3 then max 0 rawAvailable else toLoad3
    min toLoad4 rawAvailable

/-- Per-class loop body of calculateSingleFlightLoad: compute the load from the live
origin-stock record, record it, and deduct it from stock (the deduction must happen so
later flights of the same round see the reduced stock). -/
def loadClassStep (flightPlans : List FlightPlan) (aircraftTypes : List (String × Aircraft))
    (eng : AdaptiveEngine) (config : LoadingConfig) (flight : FlightEvent)
    (aircraft : Aircraft) (currentDay currentHour : ℤ) (knownFlights : List FlightEvent)
    (isEndGame isNearEnd isLastDay isEarlyGame : Bool)
    (acc : PerClassAmount × PerClassAmount × InventoryManager) (kitClass : KitClass) :
    PerClassAmount × PerClassAmount × InventoryManager :=
  let toLoad := calculateKitsToLoad acc.2.2 flightPlans aircraftTypes eng config flight kitClass
    acc.2.1 aircraft currentDay currentHour knownFlights isEndGame isNearEnd isLastDay isEarlyGame
  let inv' := (deductStock acc.2.2 flight.originAirport kitClass toLoad).2
  (acc.1.set kitClass toLoad,
    (getStock inv' flight.originAirport).getD acc.2.1,
    inv')

/-- calculateSingleFlightLoad from flightLoader.ts: a missing origin-stock record or
unknown aircraft type yields the all-zero load (never a skipped departure); otherwise
the per-class loop runs, the loaded kits are deducted and tracked in-flight. -/
def calculateSingleFlightLoad (flightPlans : List FlightPlan)
    (aircraftTypes : List (String × Aircraft)) (eng : AdaptiveEngine)
    (config : LoadingConfig) (inv : InventoryManager) (flight : FlightEvent)
    (currentDay currentHour : ℤ) (knownFlights : List FlightEvent)
    (isEndGame isNearEnd isLastDay isEarlyGame : Bool) :
    Option FlightLoadDto × InventoryManager :=
  match getStock inv flight.originAirport, lookupAssoc aircraftTypes flight.aircraftType with
  | some originStock, some aircraft =>
    let r := KIT_CLASSES.foldl
      (loadClassStep flightPlans aircraftTypes eng config flight aircraft currentDay currentHour
        knownFlights isEndGame isNearEnd isLastDay isEarlyGame)
      (EMPTY_PER_CLASS, originStock, inv)
    let inv' := trackInFlightKits r.2.2 flight.flightId flight.destinationAirport r.1
      flight.arrival.day flight.arrival.hour
    (some ⟨flight.flightId, r.1⟩, inv')
  | _, _ => (some ⟨flight.flightId, EMPTY_PER_CLASS⟩, inv)

/-- Loop body of calculateFlightLoads: compute one flight's load on the current ledger
state and push the response when one was produced. -/
def flightLoadsStep (flightPlans : List FlightPlan)
    (aircraftTypes : List (String × Aircraft)) (eng : AdaptiveEngine)
    (config : LoadingConfig) (currentDay currentHour : ℤ) (knownFlights : List FlightEvent)
    (isEndGame isNearEnd isLastDay isEarlyGame : Bool)
    (acc : List FlightLoadDto × InventoryManager) (flight : FlightEvent) :
    List FlightLoadDto × InventoryManager :=
  let r := calculateSingleFlightLoad flightPlans aircraftTypes eng config acc.2 flight
    currentDay currentHour knownFlights isEndGame isNearEnd isLastDay isEarlyGame
  match r.1 with
  | some load => (acc.1 ++ [load], r.2)
  | none => (acc.1, r.2)

/-- calculateFlightLoads from flightLoader.ts: sort the departures by priority, compute
one load per departure (threading the ledger), and collect the responses. -/
def calculateFlightLoads (flightPlans : List FlightPlan)
    (aircraftTypes : List (String × Aircraft)) (eng : AdaptiveEngine)
    (config : LoadingConfig) (inv : InventoryManager)
    (flightsReadyToDepart : List FlightEvent) (currentDay currentHour : ℤ)
    (knownFlights : List FlightEvent) : List FlightLoadDto × InventoryManager :=
  let isEarlyGame := decide (currentDay ≤ 2)
  let isLastDay := decide (29 ≤ currentDay)
  let isNearEnd := decide (15 ≤ currentDay)
  let isEndGame := decide (27 ≤ currentDay)
  let sorted := sortByLE (flightPriorLE flightPlans) flightsReadyToDepart
  sorted.foldl
    (flightLoadsStep flightPlans aircraftTypes eng config currentDay currentHour knownFlights
      isEndGame isNearEnd isLastDay isEarlyGame)
    ([], inv)

/-- Stock observed at one airport and class (0 when the airport has no stock record). -/
def stockValue (inv : InventoryManager) (airportCode : String) (kitClass : KitClass) : ℚ :=
  ((getStock inv airportCode).map fun st => st.get kitClass).getD 0

theorem getStock_deductStock_other (inv : InventoryManager) (airportCode : String)
    (kitClass : KitClass) (amount : ℚ) (stock : PerClassAmount)
    (h : getStock inv airportCode = some stock) (hle : amount ≤ stock.get kitClass) :
    ∀ code', getStock (deductStock inv airportCode kitClass amount).2 code' =
      if code' = airportCode then
        some (stock.set kitClass (stock.get kitClass - amount))
      else getStock inv code' := by
  intro code'
  have hnlt : ¬ stock.get kitClass < amount := not_lt.mpr hle
  have h' : lookupAssoc inv.airportStocks airportCode = some stock := h
  simp only [deductStock, getStock, h', if_neg hnlt]
  rw [lookupAssoc_updateAssoc]
  by_cases hc : code' = airportCode
  · subst hc
    simp [h']
  · simp [hc]

/-- C3. deductStock rejects rather than going negative: an unknown location or an amount
above the on-hand stock returns false and leaves the state untouched (the error is only
logged, never thrown); otherwise it returns true and lowers exactly that location's
stock of that class by exactly the requested amount, all other stock values unchanged. -/
theorem C3_deductStock_spec (inv : InventoryManager) (airportCode : String)
    (kitClass : KitClass) (amount : ℚ) :
    (getStock inv airportCode = none →
      deductStock inv airportCode kitClass amount = (false, inv)) ∧
    (∀ stock, getStock inv airportCode = some stock →
      (stock.get kitClass < amount →
        deductStock inv airportCode kitClass amount = (false, inv)) ∧
      (amount ≤ stock.get kitClass →
        (deductStock inv airportCode kitClass amount).1 = true ∧
        stockValue (deductStock inv airportCode kitClass amount).2 airportCode kitClass =
          stockValue inv airportCode kitClass - amount ∧
        ∀ code' kitClass', ¬ (code' = airportCode ∧ kitClass' = kitClass) →
          stockValue (deductStock inv airportCode kitClass amount).2 code' kitClass' =
            stockValue inv code' kitClass')) := by
  refine ⟨fun hnone => ?_, fun stock hsome => ⟨fun hlt => ?_, fun hle => ?_⟩⟩
  · simp [deductStock, hnone]
  · simp [deductStock, hsome, hlt]
  · have hframe := getStock_deductStock_other inv airportCode kitClass amount stock hsome hle
    have hnlt : ¬ stock.get kitClass < amount := not_lt.mpr hle
    refine ⟨by simp [deductStock, hsome, hnlt], ?_, ?_⟩
    · simp [stockValue, hframe airportCode, hsome]
    · intro code' kitClass' hne
      by_cases hc : code' = airportCode
      · subst hc
        have hck : ¬ kitClass' = kitClass := fun h => hne ⟨rfl, h⟩
        simp [stockValue, hframe code', hsome, hck]
      · simp [stockValue, hframe code', hc]

/-- Concrete ledger used to witness C3. -/
def invC3 : InventoryManager :=
  ⟨[("AAA", ⟨10, 7, 3, 2⟩)], [], [], []⟩

theorem C3_deductStock_spec_witness :
    (4 : ℚ) ≤ (10 : ℚ) ∧
    ((deductStock invC3 "AAA" KitClass.first 4).1 = true ∧
      stockValue (deductStock invC3 "AAA" KitClass.first 4).2 "AAA" KitClass.first =
        stockValue invC3 "AAA" KitClass.first - 4 ∧
      ∀ code' kitClass', ¬ (code' = "AAA" ∧ kitClass' = KitClass.first) →
        stockValue (deductStock invC3 "AAA" KitClass.first 4).2 code' kitClass' =
          stockValue invC3 code' kitClass') :=
  ⟨by norm_num,
    ((C3_deductStock_spec invC3 "AAA" KitClass.first 4).2 ⟨10, 7, 3, 2⟩ (by rfl)).2
      (by norm_num [PerClassAmount.get])⟩

/-- C10. Resolving an arrival whose flight id has no tracked in-flight batch is a
complete no-op on the ledger. -/
theorem C10_unknown_flight_noop (inv : InventoryManager) (event : FlightEvent)
    (h : findInFlight inv event.flightId = none) :
    processLandedFlight inv event = inv := by
  simp [processLandedFlight, h]

theorem C10_unknown_flight_noop_witness :
    findInFlight invC3 "F9" = none ∧
      processLandedFlight invC3
        ⟨"LANDED", "FN9", "F9", "AAA", "BBB", ⟨0, 0⟩, ⟨0, 5⟩, ⟨0, 0, 0, 0⟩, "AT1", 100⟩ = invC3 :=
  ⟨by rfl,
    C10_unknown_flight_noop invC3
      ⟨"LANDED", "FN9", "F9", "AAA", "BBB", ⟨0, 0⟩, ⟨0, 5⟩, ⟨0, 0, 0, 0⟩, "AT1", 100⟩ (by rfl)⟩

theorem foldReady_not_ready_of_mem (airports : List (String × Airport))
    (currentDay currentHour : ℤ) :
    ∀ (l : List ProcessingKits) (stocks : List (String × PerClassAmount))
      (p : ProcessingKits),
      p ∈ (foldReady airports currentDay currentHour l stocks).2 →
        ¬ batchIsReady currentDay currentHour p := by
  intro l
  induction l with
  | nil => intro stocks p hp; simp [foldReady] at hp
  | cons q rest ih =>
    intro stocks p hp
    by_cases hq : batchIsReady currentDay currentHour q
    · rw [foldReady, if_pos hq] at hp
      exact ih _ p hp
    · rw [foldReady, if_neg hq] at hp
      rcases List.mem_cons.mp hp with h | h
      · exact h ▸ hq
      · exact ih _ p h

theorem foldReady_of_none_ready (airports : List (String × Airport))
    (currentDay currentHour : ℤ) :
    ∀ (l : List ProcessingKits) (stocks : List (String × PerClassAmount)),
      (∀ p ∈ l, ¬ batchIsReady currentDay currentHour p) →
        foldReady airports currentDay currentHour l stocks = (stocks, l) := by
  intro l
  induction l with
  | nil => intro stocks _; rfl
  | cons q rest ih =>
    intro stocks hall
    have hq : ¬ batchIsReady currentDay currentHour q := hall q (List.mem_cons_self q rest)
    rw [foldReady, if_neg hq, ih stocks fun p hp => hall p (List.mem_cons_of_mem q hp)]

/-- C7. processReadyKits is idempotent per time point: a second call with the same
(day, hour) leaves every stock and the in-process queue exactly as the first call
left them. -/
theorem C7_processReadyKits_idempotent (inv : InventoryManager)
    (currentDay currentHour : ℤ) :
    processReadyKits (processReadyKits inv currentDay currentHour) currentDay currentHour =
      processReadyKits inv currentDay currentHour := by
  have hall : ∀ p ∈ (foldReady inv.airports currentDay currentHour inv.processingKits
      inv.airportStocks).2, ¬ batchIsReady currentDay currentHour p :=
    fun p hp => foldReady_not_ready_of_mem inv.airports currentDay currentHour
      inv.processingKits inv.airportStocks p hp
  simp only [processReadyKits]
  rw [foldReady_of_none_ready _ _ _ _ _ hall]

/-- Well-formedness of a stocks map: every recorded stock is non-negative in every class
and, where the airport's reference data (so its declared capacity) is known, within
capacity. -/
def stocksOK (airports : List (String × Airport))
    (stocks : List (String × PerClassAmount)) : Prop :=
  ∀ code st, lookupAssoc stocks code = some st →
    (∀ c, 0 ≤ st.get c) ∧
    (∀ a, lookupAssoc airports code = some a → ∀ c, st.get c ≤ a.capacity.get c)

theorem clampedAdd_nonneg (capacity stock amt : ℚ) (h : 0 ≤ stock) :
    0 ≤ clampedAdd capacity stock amt :=
  le_add_of_le_of_nonneg h (le_max_left 0 _)

theorem clampedAdd_le_cap (capacity stock amt : ℚ) (h : stock ≤ capacity) :
    clampedAdd capacity stock amt ≤ capacity := by
  have h1 : max 0 (min amt (capacity - stock)) ≤ capacity - stock :=
    max_le (by linarith) (min_le_right _ _)
  unfold clampedAdd
  linarith

theorem addBatchToStock_some_get (a : Airport) (st kits : PerClassAmount) (c : KitClass) :
    (addBatchToStock (some a) st kits).get c =
      clampedAdd (a.capacity.get c) (st.get c) (kits.get c) := by
  cases c <;> rfl

theorem addBatchToStock_none_get (st kits : PerClassAmount) (c : KitClass) :
    (addBatchToStock none st kits).get c = st.get c + kits.get c := by
  cases c <;> rfl

theorem stocksOK_updateAddBatch (airports : List (String × Airport))
    (stocks : List (String × PerClassAmount)) (code : String) (kits : PerClassAmount)
    (hOK : stocksOK airports stocks) (hkits : ∀ c, 0 ≤ kits.get c) :
    stocksOK airports
      (updateAssoc stocks code fun st => addBatchToStock (lookupAssoc airports code) st kits) := by
  intro code' st' hlook
  rw [lookupAssoc_updateAssoc] at hlook
  by_cases hc : code' = code
  · rw [if_pos hc] at hlook
    rcases Option.map_eq_some'.mp hlook with ⟨st0, hst0, hval⟩
    subst hc
    have h0 := hOK code' st0 hst0
    constructor
    · intro c
      rcases ha : lookupAssoc airports code' with _ | a
      · rw [← hval, ha, addBatchToStock_none_get]
        exact add_nonneg (h0.1 c) (hkits c)
      · rw [← hval, ha, addBatchToStock_some_get]
        exact clampedAdd_nonneg _ _ _ (h0.1 c)
    · intro a ha c
      rw [← hval, ha, addBatchToStock_some_get]
      exact clampedAdd_le_cap _ _ _ (h0.2 a ha c)
  · rw [if_neg hc] at hlook
    exact hOK code' st' hlook

theorem stocksOK_foldReady (airports : List (String × Airport)) (currentDay currentHour : ℤ) :
    ∀ (l : List ProcessingKits) (stocks : List (String × PerClassAmount)),
      stocksOK airports stocks → (∀ p ∈ l, ∀ c, 0 ≤ p.kits.get c) →
        stocksOK airports (foldReady airports currentDay currentHour l stocks).1 := by
  intro l
  induction l with
  | nil => intro stocks hOK _; simpa [foldReady] using hOK
  | cons q rest ih =>
    intro stocks hOK hl
    have hq : ∀ c, 0 ≤ q.kits.get c := hl q (List.mem_cons_self q rest)
    have hrest : ∀ p ∈ rest, ∀ c, 0 ≤ p.kits.get c :=
      fun p hp => hl p (List.mem_cons_of_mem q hp)
    by_cases hready : batchIsReady currentDay currentHour q
    · rw [foldReady, if_pos hready]
      rcases hs : lookupAssoc stocks q.airportCode with _ | st
      · simpa [hs] using ih stocks hOK hrest
      · have := stocksOK_updateAddBatch airports stocks q.airportCode q.kits hOK hq
        simpa [hs] using ih _ this hrest
    · rw [foldReady, if_neg hready]
      exact ih stocks hOK hrest

theorem stocksOK_deductStock (inv : InventoryManager)
    (hOK : stocksOK inv.airports inv.airportStocks) (code : String) (kc : KitClass)
    (amount : ℚ) (hamt : 0 ≤ amount) :
    stocksOK inv.airports (deductStock inv code kc amount).2.airportStocks := by
  rcases hs : getStock inv code with _ | stock
  · simpa [deductStock, hs] using hOK
  · by_cases hlt : stock.get kc < amount
    · simpa [deductStock, hs, hlt] using hOK
    · have h' : lookupAssoc inv.airportStocks code = some stock := hs
      have heq : (deductStock inv code kc amount).2.airportStocks =
          updateAssoc inv.airportStocks code fun st => st.set kc (st.get kc - amount) := by
        simp [deductStock, getStock, h', hlt]
      rw [heq]
      intro code' st' hlook
      rw [lookupAssoc_updateAssoc] at hlook
      by_cases hc : code' = code
      · rw [if_pos hc] at hlook
        rcases Option.map_eq_some'.mp hlook with ⟨st0, hst0, hval⟩
        subst hc
        have hst0eq : st0 = stock := by
          have := hst0.symm.trans h'
          exact Option.some_injective _ this
        subst hst0eq
        have h0 := hOK code' st0 hst0
        constructor
        · intro c
          rw [← hval, PerClassAmount.get_set]
          by_cases hck : c = kc
          · rw [if_pos hck]
            have := not_lt.mp hlt
            rw [hck] at *
            linarith
          · rw [if_neg hck]; exact h0.1 c
        · intro a ha c
          rw [← hval, PerClassAmount.get_set]
          by_cases hck : c = kc
          · rw [if_pos hck]
            have := h0.2 a ha kc
            rw [hck]
            linarith
          · rw [if_neg hck]; exact h0.2 a ha c
      · rw [if_neg hc] at hlook
        exact hOK code' st' hlook

theorem stocksOK_addStock (inv : InventoryManager)
    (hOK : stocksOK inv.airports inv.airportStocks) (code : String) (kc : KitClass)
    (amount : ℚ) (hamt : 0 ≤ amount) :
    stocksOK inv.airports (addStock inv code kc amount).2.airportStocks := by
  rcases hs : getStock inv code with _ | stock
  · simpa [addStock, hs] using hOK
  · have h' : lookupAssoc inv.airportStocks code = some stock := hs
    rcases ha : getAirport inv code with _ | airport
    · have heq : (addStock inv code kc amount).2.airportStocks =
          updateAssoc inv.airportStocks code fun st => st.set kc (st.get kc + amount) := by
        simp [addStock, getStock, h', ha]
      rw [heq]
      intro code' st' hlook
      rw [lookupAssoc_updateAssoc] at hlook
      by_cases hc : code' = code
      · rw [if_pos hc] at hlook
        rcases Option.map_eq_some'.mp hlook with ⟨st0, hst0, hval⟩
        subst hc
        have h0 := hOK code' st0 hst0
        constructor
        · intro c
          rw [← hval, PerClassAmount.get_set]
          by_cases hck : c = kc
          · rw [if_pos hck]
            have := h0.1 kc
            linarith
          · rw [if_neg hck]; exact h0.1 c
        · intro a hup
          have ha' : lookupAssoc inv.airports code' = none := ha
          rw [hup] at ha'
          exact absurd ha' (by simp)
      · rw [if_neg hc] at hlook
        exact hOK code' st' hlook
    · have h'' : lookupAssoc inv.airports code = some airport := ha
      set toAdd := min amount (max 0 (airport.capacity.get kc - stock.get kc)) with htoAdd
      have heq : (addStock inv code kc amount).2.airportStocks =
          updateAssoc inv.airportStocks code fun st => st.set kc (st.get kc + toAdd) := by
        simp [addStock, getStock, h', ha, htoAdd]
      rw [heq]
      intro code' st' hlook
      rw [lookupAssoc_updateAssoc] at hlook
      by_cases hc : code' = code
      · rw [if_pos hc] at hlook
        rcases Option.map_eq_some'.mp hlook with ⟨st0, hst0, hval⟩
        subst hc
        have hst0eq : st0 = stock := Option.some_injective _ (hst0.symm.trans h')
        subst hst0eq
        have h0 := hOK code' st0 hst0
        have htoAdd_nonneg : 0 ≤ toAdd := le_min hamt (le_max_left 0 _)
        constructor
        · intro c
          rw [← hval, PerClassAmount.get_set]
          by_cases hck : c = kc
          · rw [if_pos hck]
            have := h0.1 kc
            linarith
          · rw [if_neg hck]; exact h0.1 c
        · intro a hga c
          have haa : a = airport := Option.some_injective _ (hga.symm.trans h'')
          subst haa
          rw [← hval, PerClassAmount.get_set]
          by_cases hck : c = kc
          · rw [if_pos hck, hck]
            have hcap := h0.2 a hga kc
            have h2 : toAdd ≤ max 0 (a.capacity.get kc - st0.get kc) := min_le_right _ _
            have h3 : max 0 (a.capacity.get kc - st0.get kc) = a.capacity.get kc - st0.get kc :=
              max_eq_right (by linarith)
            linarith [h2, h3.le]
          · rw [if_neg hck]; exact h0.2 a hga c
      · rw [if_neg hc] at hlook
        exact hOK code' st' hlook

theorem setStock_stocks_nonneg (inv : InventoryManager)
    (hnn : ∀ code st, lookupAssoc inv.airportStocks code = some st → ∀ c, 0 ≤ st.get c)
    (code : String) (kc : KitClass) (value : ℚ) :
    ∀ code' st', lookupAssoc (setStock inv code kc value).airportStocks code' = some st' →
      ∀ c, 0 ≤ st'.get c := by
  rcases hs : getStock inv code with _ | stock
  · intro code' st' hlook
    simp only [setStock, hs] at hlook
    exact hnn code' st' hlook
  · have h' : lookupAssoc inv.airportStocks code = some stock := hs
    intro code' st' hlook
    have heq : (setStock inv code kc value).airportStocks =
        updateAssoc inv.airportStocks code fun st => st.set kc (max 0 value) := by
      simp [setStock, getStock, h']
    rw [heq, lookupAssoc_updateAssoc] at hlook
    by_cases hc : code' = code
    · rw [if_pos hc] at hlook
      rcases Option.map_eq_some'.mp hlook with ⟨st0, hst0, hval⟩
      intro c
      rw [← hval, PerClassAmount.get_set]
      by_cases hck : c = kc
      · rw [if_pos hck]; exact le_max_left 0 value
      · rw [if_neg hck]; exact hnn _ st0 hst0 c
    · rw [if_neg hc] at hlook
      exact hnn code' st' hlook

theorem stocksOK_processLandedFlight (inv : InventoryManager)
    (hOK : stocksOK inv.airports inv.airportStocks)
    (hinflight : ∀ b ∈ inv.inFlightKits, ∀ c, 0 ≤ b.kits.get c) (event : FlightEvent) :
    stocksOK inv.airports (processLandedFlight inv event).airportStocks := by
  rcases hf : findInFlight inv event.flightId with _ | b
  · simpa [processLandedFlight, hf] using hOK
  · have hb : b ∈ inv.inFlightKits := by
      have := List.find?_some hf
      exact List.mem_of_find?_eq_some hf
    have hkits : ∀ c, 0 ≤ b.kits.get c := hinflight b hb
    rcases ha : getAirport inv event.destinationAirport with _ | airport
    · have h'' : lookupAssoc inv.airports event.destinationAirport = none := ha
      rcases hs : getStock inv event.destinationAirport with _ | stock
      · simpa [processLandedFlight, hf, ha, hs] using hOK
      · have heq : (processLandedFlight inv event).airportStocks =
            updateAssoc inv.airportStocks event.destinationAirport
              fun st => addBatchToStock none st b.kits := by
          simp [processLandedFlight, hf, ha, hs]
        rw [heq, ← h'']
        exact stocksOK_updateAddBatch inv.airports inv.airportStocks
          event.destinationAirport b.kits hOK hkits
    · have h'' : lookupAssoc inv.airports event.destinationAirport = some airport := ha
      by_cases hhub : airport.isHub = true ∨ maxProcessingTimeOf airport ≤ 2
      · rcases hs : getStock inv event.destinationAirport with _ | stock
        · simpa [processLandedFlight, hf, ha, hs, hhub] using hOK
        · have heq : (processLandedFlight inv event).airportStocks =
              updateAssoc inv.airportStocks event.destinationAirport
                fun st => addBatchToStock (some airport) st b.kits := by
            simp [processLandedFlight, hf, ha, hs, hhub]
          rw [heq, ← h'']
          exact stocksOK_updateAddBatch inv.airports inv.airportStocks
            event.destinationAirport b.kits hOK hkits
      · have heq : (processLandedFlight inv event).airportStocks = inv.airportStocks := by
          simp [processLandedFlight, hf, ha, hhub]
        rw [heq]
        exact hOK

/-- Concrete ledger used to refute the setStock part of C1: one airport with capacity
100 per class and stock 50. -/
def invC1 : InventoryManager :=
  ⟨[("AAA", ⟨50, 50, 50, 50⟩)],
   [("AAA", ⟨"AAA", true, ⟨1, 1, 1, 1⟩, ⟨1, 1, 1, 1⟩, ⟨1, 1, 1, 1⟩, ⟨100, 100, 100, 100⟩⟩)],
   [], []⟩

/-- C1, counterexample. setStock is a Ledger mutation that clamps only below at zero:
forcing a value above the declared capacity leaves the stock above capacity, so the
capacity half of the claim fails for the setStock mutation. -/
theorem C1_setStock_exceeds_capacity :
    stockValue (setStock invC1 "AAA" KitClass.first 200) "AAA" KitClass.first = 200 ∧
    ((getAirport invC1 "AAA").map fun a => a.capacity.get KitClass.first) = some 100 ∧
    ¬ stockValue (setStock invC1 "AAA" KitClass.first 200) "AAA" KitClass.first ≤ 100 := by
  refine ⟨by rfl, by rfl, by decide⟩

/-- C1, amended. Stock stays non-negative after every Ledger mutation, and deductStock
(of a non-negative amount), addStock, processReadyKits and processLandedFlight each
preserve "stock ≤ declared capacity" at every location whose reference data is known;
setStock preserves only non-negativity (it clamps below at 0) and may leave stock above
the declared capacity. -/
theorem C1_amended_ledger_invariants (inv : InventoryManager)
    (hOK : stocksOK inv.airports inv.airportStocks)
    (hinflight : ∀ b ∈ inv.inFlightKits, ∀ c, 0 ≤ b.kits.get c)
    (hprocessing : ∀ p ∈ inv.processingKits, ∀ c, 0 ≤ p.kits.get c) :
    (∀ code kc amount, 0 ≤ amount →
      stocksOK inv.airports (deductStock inv code kc amount).2.airportStocks) ∧
    (∀ code kc amount, 0 ≤ amount →
      stocksOK inv.airports (addStock inv code kc amount).2.airportStocks) ∧
    (∀ currentDay currentHour : ℤ,
      stocksOK inv.airports (processReadyKits inv currentDay currentHour).airportStocks) ∧
    (∀ event, stocksOK inv.airports (processLandedFlight inv event).airportStocks) ∧
    (∀ code kc value code' st',
      lookupAssoc (setStock inv code kc value).airportStocks code' = some st' →
        ∀ c, 0 ≤ st'.get c) := by
  refine ⟨fun code kc amount hamt => stocksOK_deductStock inv hOK code kc amount hamt,
    fun code kc amount hamt => stocksOK_addStock inv hOK code kc amount hamt,
    fun currentDay currentHour => ?_,
    fun event => stocksOK_processLandedFlight inv hOK hinflight event,
    fun code kc value => setStock_stocks_nonneg inv (fun code st h c => (hOK code st h).1 c)
      code kc value⟩
  simpa [processReadyKits] using
    stocksOK_foldReady inv.airports currentDay currentHour inv.processingKits
      inv.airportStocks hOK hprocessing

theorem lookupAssoc_append_single_ne {α : Type} (l : List (String × α)) (k k' : String)
    (v : α) (h : ¬ k' = k) : lookupAssoc (l ++ [(k, v)]) k' = lookupAssoc l k' := by
  induction l with
  | nil =>
    have : ¬ k = k' := fun hh => h hh.symm
    simp [lookupAssoc, this]
  | cons e rest ih =>
    by_cases he : e.1 = k'
    · simp [lookupAssoc, he]
    · simp [lookupAssoc, he, ih]

theorem lookupAssoc_mapset_ne {α : Type} (l : List (String × α)) (k k' : String)
    (v : α) (h : ¬ k' = k) :
    lookupAssoc (l.map fun e => if e.1 = k then (k, v) else e) k' = lookupAssoc l k' := by
  induction l with
  | nil => rfl
  | cons e rest ih =>
    by_cases hek : e.1 = k
    · have : ¬ k = k' := fun hh => h hh.symm
      have he' : ¬ e.1 = k' := fun hh => h (by rw [← hh, hek])
      simp [lookupAssoc, hek, this, he', ih]
    · by_cases he : e.1 = k'
      · simp [lookupAssoc, hek, he, h]
      · simp [lookupAssoc, hek, he, ih]

theorem lookupAssoc_setAssoc_ne {α : Type} (l : List (String × α)) (k k' : String)
    (v : α) (h : ¬ k' = k) : lookupAssoc (setAssoc l k v) k' = lookupAssoc l k' := by
  unfold setAssoc
  split
  · exact lookupAssoc_mapset_ne l k k' v h
  · exact lookupAssoc_append_single_ne l k k' v h

theorem recordPenaltyRound_quiet (code : String) :
    ∀ (records : List PenaltyRecord) (perfs : List (String × AirportPerformance)),
      (∀ r ∈ records, ∀ c, r.airportCode = some c → ¬ c = code) →
        getAirportRiskScore (recordPenaltyRound perfs records) code =
          getAirportRiskScore perfs code := by
  intro records
  induction records with
  | nil => intro perfs _; rfl
  | cons r rest ih =>
    intro perfs hq
    have hrest : ∀ s ∈ rest, ∀ c, s.airportCode = some c → ¬ c = code :=
      fun s hs => hq s (List.mem_cons_of_mem r hs)
    rcases hrc : r.airportCode with _ | c
    · simpa [recordPenaltyRound, hrc] using ih perfs hrest
    · have hcne : ¬ c = code := hq r (List.mem_cons_self r rest) c hrc
      have hstep : recordPenaltyRound perfs (r :: rest) =
          recordPenaltyRound (updateAirportPerformance perfs r c) rest := by
        simp [recordPenaltyRound, hrc]
      rw [hstep, ih _ hrest]
      have hcode : ¬ code = c := fun h => hcne h.symm
      simp only [getAirportRiskScore, updateAirportPerformance]
      rw [lookupAssoc_setAssoc_ne _ _ _ _ hcode]

/-- Overflow penalty record for airport AAA (classifyPenalty "INVENTORY_EXCEEDS_CAPACITY",
parseReason yielding the airport code), at some round `d`. -/
def overflowAAA (d : ℤ) : PenaltyRecord :=
  ⟨d, 0, classifyPenalty "INVENTORY_EXCEEDS_CAPACITY", 777, some "AAA", none⟩

/-- Per-airport risk state after three consecutive one-overflow rounds for AAA,
starting from an empty tracker (so from the lazily created 0.5 score). -/
def perfsAfter3 : List (String × AirportPerformance) :=
  recordPenaltyRound
    (recordPenaltyRound (recordPenaltyRound [] [overflowAAA 0]) [overflowAAA 1])
    [overflowAAA 2]

/-- Unfulfilled-style penalty record that parses to airport BBB: a round containing only
this record is a quiet round for AAA. -/
def quietBBB : PenaltyRecord :=
  ⟨3, 0, classifyPenalty "FLIGHT_UNFULFILLED_KITS", 50, some "BBB", none⟩

/-- C5, counterexample. After three overflow events for a location, a round whose penalty
list contains no record for that location leaves its risk score exactly unchanged — it
does not strictly decrease, because the decay runs only inside updateAirportPerformance,
which a quiet round never calls for that location. -/
theorem perfsAfter3_eval : perfsAfter3 = [("AAA", ⟨3, 0, 2, 3895947/5000000⟩)] := by
  norm_num [perfsAfter3, recordPenaltyRound, overflowAAA, updateAirportPerformance,
    lookupAssoc, setAssoc, defaultPerformance, classifyPenalty, min_def, max_def]

theorem C5_quiet_round_leaves_risk_unchanged :
    getAirportRiskScore perfsAfter3 "AAA" = 7791894/10000000 ∧
    getAirportRiskScore (recordPenaltyRound perfsAfter3 [quietBBB]) "AAA" =
      getAirportRiskScore perfsAfter3 "AAA" ∧
    ¬ getAirportRiskScore (recordPenaltyRound perfsAfter3 [quietBBB]) "AAA" <
        getAirportRiskScore perfsAfter3 "AAA" := by
  rw [perfsAfter3_eval]
  norm_num [recordPenaltyRound, quietBBB, updateAirportPerformance, getAirportRiskScore,
    lookupAssoc, setAssoc, defaultPerformance, classifyPenalty, min_def, max_def]

/-- C5, amended. Three consecutive overflow rounds raise the risk score stepwise toward
0.8 (each event adds 0.1, capped at 1.0, and the 0.99 decay is applied on that update:
0.5 → 0.594 → 0.68706 → 0.7791894), and any subsequent round whose penalty list contains
no record parsed to that location leaves the risk score exactly unchanged (so ten quiet
rounds leave it at 0.7791894, with no decrease and no need for the floor clamp). -/
theorem C5_amended_risk_trajectory :
    (getAirportRiskScore (recordPenaltyRound [] [overflowAAA 0]) "AAA" = 594/1000 ∧
     getAirportRiskScore (recordPenaltyRound (recordPenaltyRound [] [overflowAAA 0])
       [overflowAAA 1]) "AAA" = 68706/100000 ∧
     getAirportRiskScore perfsAfter3 "AAA" = 7791894/10000000 ∧
     (1/2 : ℚ) < 594/1000 ∧ (594/1000 : ℚ) < 68706/100000 ∧
     (68706/100000 : ℚ) < 7791894/10000000 ∧ (7791894/10000000 : ℚ) < 8/10) ∧
    (∀ (records : List PenaltyRecord) (perfs : List (String × AirportPerformance)),
      (∀ r ∈ records, ∀ c, r.airportCode = some c → ¬ c = "AAA") →
        getAirportRiskScore (recordPenaltyRound perfs records) "AAA" =
          getAirportRiskScore perfs "AAA") := by
  refine ⟨⟨?_, ?_, ?_, by norm_num, by norm_num, by norm_num, by norm_num⟩,
    fun records perfs h => recordPenaltyRound_quiet "AAA" records perfs h⟩
  · norm_num [recordPenaltyRound, overflowAAA, updateAirportPerformance, getAirportRiskScore,
      lookupAssoc, setAssoc, defaultPerformance, classifyPenalty, min_def, max_def]
  · norm_num [recordPenaltyRound, overflowAAA, updateAirportPerformance, getAirportRiskScore,
      lookupAssoc, setAssoc, defaultPerformance, classifyPenalty, min_def, max_def]
  · rw [perfsAfter3_eval]
    norm_num [getAirportRiskScore, lookupAssoc]

theorem C5_amended_risk_trajectory_witness :
    (∀ r ∈ [quietBBB], ∀ c, r.airportCode = some c → ¬ c = "AAA") ∧
    getAirportRiskScore (recordPenaltyRound perfsAfter3 [quietBBB]) "AAA" =
      getAirportRiskScore perfsAfter3 "AAA" :=
  ⟨by simp [quietBBB], C5_amended_risk_trajectory.2 [quietBBB] perfsAfter3 (by simp [quietBBB])⟩

theorem invC1_stocksOK : stocksOK invC1.airports invC1.airportStocks := by
  intro code st h
  simp only [invC1, lookupAssoc] at h
  by_cases hc : ("AAA" : String) = code
  · rw [if_pos hc] at h
    have hst := Option.some_injective _ h
    constructor
    · intro c
      rw [← hst]
      cases c <;> norm_num [PerClassAmount.get]
    · intro a ha c
      rw [← hc] at ha
      simp only [invC1, getAirport, lookupAssoc, if_pos rfl] at ha
      have ha' := Option.some_injective _ ha
      rw [← hst, ← ha']
      cases c <;> norm_num [PerClassAmount.get]
  · rw [if_neg hc] at h
    exact absurd h (by simp)

theorem C1_amended_ledger_invariants_witness :
    (0 : ℚ) ≤ 5 ∧
    stocksOK invC1.airports (deductStock invC1 "AAA" KitClass.first 5).2.airportStocks :=
  ⟨by norm_num,
    (C1_amended_ledger_invariants invC1 invC1_stocksOK (by simp [invC1]) (by simp [invC1])).1
      "AAA" KitClass.first 5 (by norm_num)⟩

/-- C9. In regular replenishment mode (past the early-game window and not in emergency),
calculatePurchaseForClass orders only when the fully capped amount strictly exceeds 100
units; in particular a computed deficit of 100 or fewer yields no order that round. -/
theorem C9_regular_minimum_order_gate (config : PurchaseConfig)
    (flightPlans : List FlightPlan) (hubAirport : Airport) (inv : InventoryManager)
    (totalPurchased hubStock : PerClassAmount) (kc : KitClass)
    (currentDay currentHour : ℤ) (knownFlights : List FlightEvent)
    (hday : 2 < currentDay)
    (hemergency : config.emergencyThresholds.get kc ≤ hubStock.get kc) :
    (calculatePurchaseForClass config flightPlans hubAirport inv totalPurchased hubStock kc
        currentDay currentHour knownFlights = 0 ∨
      100 < calculatePurchaseForClass config flightPlans hubAirport inv totalPurchased hubStock
        kc currentDay currentHour knownFlights) ∧
    (purchaseDeficit config flightPlans kc currentDay currentHour knownFlights
        (totalExpectedFor inv totalPurchased hubStock kc) ≤ 100 →
      calculatePurchaseForClass config flightPlans hubAirport inv totalPurchased hubStock kc
        currentDay currentHour knownFlights = 0) := by
  have hno2 : ¬ currentDay ≤ 2 := by omega
  have hno2' : ¬ currentDay < 2 := by omega
  have hnoem : ¬ hubStock.get kc < config.emergencyThresholds.get kc := not_lt.mpr hemergency
  constructor
  · simp only [calculatePurchaseForClass]
    split_ifs <;>
      first
        | exact Or.inl rfl
        | exact Or.inr (by assumption)
        | exact absurd (by assumption) hnoem
        | exact absurd (And.left (by assumption)) hno2
        | exact absurd (by assumption) hno2'
  · intro hdef
    simp only [calculatePurchaseForClass]
    split_ifs <;>
      first
        | rfl
        | exact absurd (by assumption) hnoem
        | exact absurd (And.left (by assumption)) hno2
        | exact absurd (by assumption) hno2'
        | exact absurd (by assumption) (not_lt.mpr (le_trans (min_le_left _ _) hdef))

/-- Concrete configuration of the C9 witness: emergency floor 0, threshold high. -/
def cfgC9 : PurchaseConfig :=
  ⟨⟨1800, 6000, 4000, 70000⟩, ⟨0, 0, 0, 0⟩, ⟨1000, 3000, 1000, 15000⟩,
   ⟨50000, 100000, 30000, 200000⟩, ⟨42000, 42000, 3000, 42000⟩, 6, 1, 0⟩

/-- Concrete hub of the C9/C6 witnesses. -/
def hubC6 : Airport :=
  ⟨"HUB1", true, ⟨1, 1, 1, 1⟩, ⟨1, 1, 1, 1⟩, ⟨1, 1, 1, 1⟩, ⟨5000, 5000, 5000, 5000⟩⟩

/-- Concrete ledger of the C9 witness: hub stock 400 in economy, no in-flight or
in-process kits. -/
def invC9 : InventoryManager :=
  ⟨[("HUB1", ⟨400, 400, 400, 400⟩)], [("HUB1", hubC6)], [], []⟩

theorem C9_regular_minimum_order_gate_witness :
    ((2 : ℤ) < 10 ∧ cfgC9.emergencyThresholds.get KitClass.economy ≤
        (⟨400, 400, 400, 400⟩ : PerClassAmount).get KitClass.economy) ∧
    (purchaseDeficit cfgC9 [] KitClass.economy 10 0 []
        (totalExpectedFor invC9 EMPTY_PER_CLASS ⟨400, 400, 400, 400⟩ KitClass.economy) ≤ 100 →
      calculatePurchaseForClass cfgC9 [] hubC6 invC9 EMPTY_PER_CLASS ⟨400, 400, 400, 400⟩
        KitClass.economy 10 0 [] = 0) :=
  ⟨⟨by norm_num, by norm_num [cfgC9, PerClassAmount.get]⟩,
    (C9_regular_minimum_order_gate cfgC9 [] hubC6 invC9 EMPTY_PER_CLASS ⟨400, 400, 400, 400⟩
      KitClass.economy 10 0 [] (by norm_num) (by norm_num [cfgC9, PerClassAmount.get])).2⟩

/-- Configuration of the C6 scenario: per-class threshold (the emergency order size)
1000, emergency floor 500, external rate limit 5000. -/
def cfgC6 : PurchaseConfig :=
  ⟨⟨1000, 1000, 1000, 1000⟩, ⟨500, 500, 500, 500⟩, ⟨15000, 15000, 15000, 15000⟩,
   ⟨200000, 200000, 200000, 200000⟩, ⟨5000, 5000, 5000, 5000⟩, 6, 1, 48⟩

/-- Ledger of the C6 scenario: depot stock 300 in the lowest tier (economy), other
tiers full, nothing in transit or in process, capacity 5000. -/
def invC6 : InventoryManager :=
  ⟨[("HUB1", ⟨5000, 5000, 5000, 300⟩)], [("HUB1", hubC6)], [], []⟩

theorem invC6_totalExpected_economy :
    totalExpectedFor invC6 EMPTY_PER_CLASS ⟨5000, 5000, 5000, 300⟩ KitClass.economy = 300 := by
  norm_num [totalExpectedFor, getInFlightKitsToAirport, getProcessingKitsAtAirport, invC6,
    PerClassAmount.get, EMPTY_PER_CLASS]

theorem invC6_totalExpected_first :
    totalExpectedFor invC6 EMPTY_PER_CLASS ⟨5000, 5000, 5000, 300⟩ KitClass.first = 5000 := by
  norm_num [totalExpectedFor, getInFlightKitsToAirport, getProcessingKitsAtAirport, invC6,
    PerClassAmount.get, EMPTY_PER_CLASS]

theorem invC6_totalExpected_business :
    totalExpectedFor invC6 EMPTY_PER_CLASS ⟨5000, 5000, 5000, 300⟩ KitClass.business = 5000 := by
  norm_num [totalExpectedFor, getInFlightKitsToAirport, getProcessingKitsAtAirport, invC6,
    PerClassAmount.get, EMPTY_PER_CLASS]

theorem invC6_totalExpected_premiumEconomy :
    totalExpectedFor invC6 EMPTY_PER_CLASS ⟨5000, 5000, 5000, 300⟩ KitClass.premiumEconomy
      = 5000 := by
  norm_num [totalExpectedFor, getInFlightKitsToAirport, getProcessingKitsAtAirport, invC6,
    PerClassAmount.get, EMPTY_PER_CLASS]

theorem purchaseForClass_C6_economy (currentDay currentHour : ℤ) (hday : 2 < currentDay) :
    calculatePurchaseForClass cfgC6 [] hubC6 invC6 EMPTY_PER_CLASS ⟨5000, 5000, 5000, 300⟩
      KitClass.economy currentDay currentHour [] = 1000 := by
  simp only [calculatePurchaseForClass, invC6_totalExpected_economy, cfgC6, hubC6,
    PerClassAmount.get]
  split_ifs with h1 h2 h3 h4
  case pos => exact absurd h1 (by norm_num [max_def])
  next => exact absurd h2.1 (by omega)
  next => norm_num [min_def, max_def, EMPTY_PER_CLASS]
  next => exact absurd (by norm_num [min_def, max_def, EMPTY_PER_CLASS]) h4
  all_goals exact absurd (by norm_num : (300 : ℚ) < 500) h3

theorem purchaseForClass_C6_first (currentDay currentHour : ℤ) :
    calculatePurchaseForClass cfgC6 [] hubC6 invC6 EMPTY_PER_CLASS ⟨5000, 5000, 5000, 300⟩
      KitClass.first currentDay currentHour [] = 0 := by
  simp only [calculatePurchaseForClass, invC6_totalExpected_first, hubC6, PerClassAmount.get]
  split_ifs with h <;> first | rfl | exact absurd (by norm_num [max_def]) h

theorem purchaseForClass_C6_business (currentDay currentHour : ℤ) :
    calculatePurchaseForClass cfgC6 [] hubC6 invC6 EMPTY_PER_CLASS ⟨5000, 5000, 5000, 300⟩
      KitClass.business currentDay currentHour [] = 0 := by
  simp only [calculatePurchaseForClass, invC6_totalExpected_business, hubC6, PerClassAmount.get]
  split_ifs with h <;> first | rfl | exact absurd (by norm_num [max_def]) h

theorem purchaseForClass_C6_premiumEconomy (currentDay currentHour : ℤ) :
    calculatePurchaseForClass cfgC6 [] hubC6 invC6 EMPTY_PER_CLASS ⟨5000, 5000, 5000, 300⟩
      KitClass.premiumEconomy currentDay currentHour [] = 0 := by
  simp only [calculatePurchaseForClass, invC6_totalExpected_premiumEconomy, hubC6,
    PerClassAmount.get]
  split_ifs with h <;> first | rfl | exact absurd (by norm_num [max_def]) h

theorem purchaseForClass_C6_economy_day1 :
    calculatePurchaseForClass cfgC6 [] hubC6 invC6 EMPTY_PER_CLASS ⟨5000, 5000, 5000, 300⟩
      KitClass.economy 1 1 [] = 4700 := by
  simp only [calculatePurchaseForClass, invC6_totalExpected_economy, cfgC6, hubC6,
    PerClassAmount.get]
  norm_num [min_def, max_def, EMPTY_PER_CLASS]

/-- C6, counterexample. With every parameter of the scenario in place (stock 300,
emergency floor 500, emergency order size 1000, capacity 5000, rate limit 5000, nothing
in transit or in process, no prior purchases, 694 hours ≥ the 12-hour lead time
remaining), the order issued at day 1 hour 1 is 4700, not 1000: the early-game branch
(day ≤ 2, stock below half capacity) runs before the emergency branch and orders
min(maxPerOrder, budget, rate limit, headroom) instead. -/
theorem C6_early_game_overrides_emergency :
    ((calculatePurchaseOrder cfgC6 [] (some hubC6) invC6 EMPTY_PER_CLASS 1 1 []).1.map
        fun o => o.economy) = some 4700 ∧ (4700 : ℚ) ≠ 1000 := by
  have hstock : getStock invC6 "HUB1" = some ⟨5000, 5000, 5000, 300⟩ := rfl
  constructor
  · simp only [calculatePurchaseOrder, hstock, LEAD_TIMES, purchaseForClass_C6_economy_day1,
      purchaseForClass_C6_first 1 1, purchaseForClass_C6_business 1 1,
      purchaseForClass_C6_premiumEconomy 1 1]
    norm_num
  · norm_num

/-- C6, amended. Outside the early-game window (day ≥ 3), the scenario behaves as
claimed: with depot stock 300 in the lowest tier, emergency floor 500, emergency order
size 1000, capacity 5000 and rate limit 5000 (nothing in transit or in process, no prior
purchases, enough hours left to cover the 12-hour lead time), the Replenishment Planner
issues an order of exactly 1000 for that tier at any evaluated hour — the emergency
branch precedes the regular interval gate, so the hour need not lie on the purchase
interval. -/
theorem C6_amended_emergency_order (currentDay currentHour : ℤ) (hday : 2 < currentDay)
    (hlead : 12 ≤ (29 - currentDay) * 24 + (23 - currentHour)) :
    (calculatePurchaseOrder cfgC6 [] (some hubC6) invC6 EMPTY_PER_CLASS currentDay
        currentHour []).1 = some ⟨0, 0, 0, 1000⟩ := by
  have hstock : getStock invC6 "HUB1" = some ⟨5000, 5000, 5000, 300⟩ := rfl
  simp only [calculatePurchaseOrder, hstock, LEAD_TIMES,
    purchaseForClass_C6_economy currentDay currentHour hday,
    purchaseForClass_C6_first currentDay currentHour,
    purchaseForClass_C6_business currentDay currentHour,
    purchaseForClass_C6_premiumEconomy currentDay currentHour]
  rw [if_neg (show ¬ (29 - currentDay) * 24 + (23 - currentHour) < 12 from by omega)]
  norm_num

theorem C6_amended_emergency_order_witness :
    ((2 : ℤ) < 5 ∧ (12 : ℤ) ≤ (29 - 5) * 24 + (23 - 3)) ∧
    (calculatePurchaseOrder cfgC6 [] (some hubC6) invC6 EMPTY_PER_CLASS 5 3 []).1 =
      some ⟨0, 0, 0, 1000⟩ :=
  ⟨⟨by norm_num, by norm_num⟩, C6_amended_emergency_order 5 3 (by norm_num) (by norm_num)⟩

/-- Template silence over a horizon: no template row matches the location at any of the
`n` loop positions starting from (checkDay, checkHour), following the loop's own hour
rollover. -/
def templateNoMatch (flightPlans : List FlightPlan) (airportCode : String) :
    ℤ → ℤ → ℕ → Bool
  | _, _, 0 => true
  | checkDay, checkHour, Nat.succ n =>
    (flightPlans.all fun p => ! planMatchesAt p airportCode checkDay checkHour) &&
    (if 24 ≤ checkHour + 1 then templateNoMatch flightPlans airportCode (checkDay + 1) 0 n
     else templateNoMatch flightPlans airportCode checkDay (checkHour + 1) n)

theorem templateLoop_eq_zero (flightPlans : List FlightPlan) (airportCode : String)
    (kitClass : KitClass) :
    ∀ (n : ℕ) (checkDay checkHour : ℤ),
      templateNoMatch flightPlans airportCode checkDay checkHour n = true →
        templateLoop flightPlans airportCode kitClass checkDay checkHour n = 0 := by
  intro n
  induction n with
  | zero => intro _ _ _; rfl
  | succ n ih =>
    intro checkDay checkHour hm
    rw [templateNoMatch, Bool.and_eq_true] at hm
    have hall := List.all_eq_true.mp hm.1
    have hsum : (flightPlans.map fun p =>
        if planMatchesAt p airportCode checkDay checkHour then getTypicalDemandEstimate kitClass
        else 0).sum = 0 := by
      apply List.sum_eq_zero
      intro x hx
      rcases List.mem_map.mp hx with ⟨p, hp, hpx⟩
      have := hall p hp
      simp only [Bool.not_eq_true'] at this
      rw [← hpx, this]
      simp
    rw [templateLoop, hsum]
    by_cases h24 : (24 : ℤ) ≤ checkHour + 1
    · rw [if_pos h24] at hm ⊢
      rw [ih _ _ hm.2]
      ring
    · rw [if_neg h24] at hm ⊢
      rw [ih _ _ hm.2]
      ring

theorem demandSum_filter (flights : List FlightEvent) (airportCode : String)
    (currentDay currentHour targetDay targetHour : ℤ) (kitClass : KitClass) :
    (flights.map fun f =>
      if flightInDemandWindow f airportCode currentDay currentHour targetDay targetHour then
        f.passengers.get kitClass
      else 0).sum =
    ((flights.filter fun f => f.originAirport == airportCode).map fun f =>
      if flightInDemandWindow f airportCode currentDay currentHour targetDay targetHour then
        f.passengers.get kitClass
      else 0).sum := by
  induction flights with
  | nil => rfl
  | cons f rest ih =>
    by_cases ho : f.originAirport = airportCode
    · simp only [List.filter_cons, ho]
      simp [ih]
    · have hwin : ¬ flightInDemandWindow f airportCode currentDay currentHour targetDay
          targetHour := fun h => ho h.1
      simp only [List.filter_cons]
      have hob : (f.originAirport == airportCode) = false := by
        simp [ho]
      simp [hwin, hob, ih]

/-- C8. If the known departures from a location are exactly one flight, scheduled 6
hours ahead and carrying 40 passengers of one class, and no recurring-template row
matches that location at any hour of the 24-hour horizon, then the forecast demand for
that location and class over the 24-hour horizon is exactly 40.  (The code never looks
at the lifecycle state, so this holds for a Confirmed — checked-in — departure in
particular.) -/
theorem C8_forecast_single_flight_demand (flightPlans : List FlightPlan)
    (knownFlights : List FlightEvent) (fl : FlightEvent) (airportCode : String)
    (currentDay currentHour : ℤ) (kitClass : KitClass)
    (hhour0 : 0 ≤ currentHour) (hhour24 : currentHour < 24)
    (hfilter : knownFlights.filter (fun f => f.originAirport == airportCode) = [fl])
    (hdepday : fl.departure.day = currentDay + (currentHour + 6) / 24)
    (hdephour : fl.departure.hour = (currentHour + 6) % 24)
    (hpass : fl.passengers.get kitClass = 40)
    (htempl : templateNoMatch flightPlans airportCode currentDay currentHour 24 = true) :
    calculateDemandForAirport flightPlans airportCode currentDay currentHour 24 kitClass
      knownFlights = 40 := by
  have horigin : fl.originAirport = airportCode := by
    have hmem : fl ∈ knownFlights.filter fun f => f.originAirport == airportCode := by
      rw [hfilter]; exact List.mem_singleton.mpr rfl
    have := List.of_mem_filter hmem
    simpa using this
  have hwin : flightInDemandWindow fl airportCode currentDay currentHour
      (currentDay + (currentHour + 24) / 24) (currentHour % 24) := by
    refine ⟨horigin, ?_, ?_⟩ <;> rw [hdepday, hdephour] <;> omega
  simp only [calculateDemandForAirport, Nat.cast_ofNat]
  rw [demandSum_filter, hfilter]
  rw [templateLoop_eq_zero flightPlans airportCode kitClass 24 currentDay currentHour htempl]
  simp [hwin, hpass]

/-- Concrete flight used in the C8 witness: one checked-in departure from APT, 6 hours
ahead, with 40 premium-economy passengers. -/
def flC8 : FlightEvent :=
  ⟨"CHECKED_IN", "FN1", "F1", "APT", "HUB1", ⟨0, 6⟩, ⟨0, 9⟩, ⟨0, 0, 40, 0⟩, "AT1", 500⟩

theorem C8_forecast_single_flight_demand_witness :
    (List.filter (fun f => f.originAirport == "APT") [flC8] = [flC8] ∧
      templateNoMatch [] "APT" 0 0 24 = true) ∧
    calculateDemandForAirport [] "APT" 0 0 24 KitClass.premiumEconomy [flC8] = 40 :=
  ⟨⟨by rfl, by rfl⟩,
    C8_forecast_single_flight_demand [] [flC8] flC8 "APT" 0 0 KitClass.premiumEconomy
      (by norm_num) (by norm_num) (by rfl) (by rfl) (by rfl) (by rfl) (by rfl)⟩

theorem calculateSingleFlightLoad_isSome (flightPlans : List FlightPlan)
    (aircraftTypes : List (String × Aircraft)) (eng : AdaptiveEngine)
    (config : LoadingConfig) (inv : InventoryManager) (flight : FlightEvent)
    (currentDay currentHour : ℤ) (knownFlights : List FlightEvent)
    (isEndGame isNearEnd isLastDay isEarlyGame : Bool) :
    ∃ dto, (calculateSingleFlightLoad flightPlans aircraftTypes eng config inv flight
      currentDay currentHour knownFlights isEndGame isNearEnd isLastDay isEarlyGame).1 =
        some dto := by
  rcases h1 : getStock inv flight.originAirport with _ | st <;>
    rcases h2 : lookupAssoc aircraftTypes flight.aircraftType with _ | a <;>
      simp [calculateSingleFlightLoad, h1, h2]

theorem flightLoadsStep_length (flightPlans : List FlightPlan)
    (aircraftTypes : List (String × Aircraft)) (eng : AdaptiveEngine)
    (config : LoadingConfig) (currentDay currentHour : ℤ) (knownFlights : List FlightEvent)
    (isEndGame isNearEnd isLastDay isEarlyGame : Bool)
    (acc : List FlightLoadDto × InventoryManager) (flight : FlightEvent) :
    (flightLoadsStep flightPlans aircraftTypes eng config currentDay currentHour knownFlights
      isEndGame isNearEnd isLastDay isEarlyGame acc flight).1.length = acc.1.length + 1 := by
  rcases calculateSingleFlightLoad_isSome flightPlans aircraftTypes eng config acc.2 flight
    currentDay currentHour knownFlights isEndGame isNearEnd isLastDay isEarlyGame with ⟨dto, hdto⟩
  simp [flightLoadsStep, hdto]

theorem foldl_flightLoadsStep_length (flightPlans : List FlightPlan)
    (aircraftTypes : List (String × Aircraft)) (eng : AdaptiveEngine)
    (config : LoadingConfig) (currentDay currentHour : ℤ) (knownFlights : List FlightEvent)
    (isEndGame isNearEnd isLastDay isEarlyGame : Bool) :
    ∀ (l : List FlightEvent) (acc : List FlightLoadDto × InventoryManager),
      (l.foldl (flightLoadsStep flightPlans aircraftTypes eng config currentDay currentHour
        knownFlights isEndGame isNearEnd isLastDay isEarlyGame) acc).1.length =
          acc.1.length + l.length := by
  intro l
  induction l with
  | nil => intro acc; simp
  | cons f rest ih =>
    intro acc
    rw [List.foldl_cons, ih, flightLoadsStep_length]
    simp
    omega

/-- C4. Every departure gets exactly one load response per round (the response list is
as long as the departure list), and a departure whose origin has no stock record or
whose aircraft type is unknown gets the all-zero response on an untouched ledger, never
a skipped departure or a failed round. -/
theorem C4_every_departure_answered (flightPlans : List FlightPlan)
    (aircraftTypes : List (String × Aircraft)) (eng : AdaptiveEngine)
    (config : LoadingConfig) (inv : InventoryManager)
    (flightsReadyToDepart : List FlightEvent) (currentDay currentHour : ℤ)
    (knownFlights : List FlightEvent) :
    (calculateFlightLoads flightPlans aircraftTypes eng config inv flightsReadyToDepart
        currentDay currentHour knownFlights).1.length = flightsReadyToDepart.length ∧
    (∀ (flight : FlightEvent) (inv' : InventoryManager)
        (isEndGame isNearEnd isLastDay isEarlyGame : Bool),
      getStock inv' flight.originAirport = none ∨
          lookupAssoc aircraftTypes flight.aircraftType = none →
        calculateSingleFlightLoad flightPlans aircraftTypes eng config inv' flight currentDay
            currentHour knownFlights isEndGame isNearEnd isLastDay isEarlyGame =
          (some ⟨flight.flightId, EMPTY_PER_CLASS⟩, inv')) := by
  constructor
  · rw [calculateFlightLoads, foldl_flightLoadsStep_length, length_sortByLE]
    simp
  · intro flight inv' isEndGame isNearEnd isLastDay isEarlyGame hmissing
    rcases hmissing with h | h
    · simp [calculateSingleFlightLoad, h]
    · rcases h1 : getStock inv' flight.originAirport with _ | st <;>
        simp [calculateSingleFlightLoad, h1, h]

/-- Concrete flight used in the C4 witness: origin ZZZ has no stock record. -/
def flC4 : FlightEvent :=
  ⟨"CHECKED_IN", "FN7", "F7", "ZZZ", "AAA", ⟨0, 1⟩, ⟨0, 4⟩, ⟨5, 5, 5, 5⟩, "AT1", 100⟩

theorem C4_every_departure_answered_witness :
    getStock invC3 "ZZZ" = none ∧
    calculateSingleFlightLoad [] [] AdaptiveEngine.init DEFAULT_LOADING_CONFIG invC3 flC4
        0 0 [] false false false false = (some ⟨"F7", EMPTY_PER_CLASS⟩, invC3) :=
  ⟨by rfl,
    (C4_every_departure_answered [] [] AdaptiveEngine.init DEFAULT_LOADING_CONFIG invC3 []
      0 0 []).2 flC4 invC3 false false false false (Or.inl (by rfl))⟩

/-- Total kits of one class held in the in-flight pool. -/
def inFlightTierTotal (inv : InventoryManager) (kitClass : KitClass) : ℚ :=
  (inv.inFlightKits.map fun b => b.kits.get kitClass).sum

/-- Total kits of one class held in the in-process pool. -/
def processingTierTotal (inv : InventoryManager) (kitClass : KitClass) : ℚ :=
  (inv.processingKits.map fun p => p.kits.get kitClass).sum

/-- Sum of one class over the four pools of the conservation property:
origin stock, in-transit, in-process, destination stock. -/
def tierTotal (inv : InventoryManager) (origin dest : String) (kitClass : KitClass) : ℚ :=
  stockValue inv origin kitClass + inFlightTierTotal inv kitClass +
    processingTierTotal inv kitClass + stockValue inv dest kitClass

/-- Destination used in the C2 counterexample: a hub with zero capacity. -/
def aCX : Airport := ⟨"DST", true, ⟨3, 3, 3, 3⟩, ⟨1, 1, 1, 1⟩, ⟨1, 1, 1, 1⟩, ⟨0, 0, 0, 0⟩⟩

/-- Initial ledger of the C2 counterexample: 10 first-class kits at ORG, full (zero
capacity, zero stock) DST. -/
def invCX0 : InventoryManager :=
  ⟨[("ORG", ⟨10, 10, 10, 10⟩), ("DST", ⟨0, 0, 0, 0⟩)], [("DST", aCX)], [], []⟩

/-- State of the C2 counterexample after the load step: 10 first-class kits deducted at
ORG and tracked in-flight to DST. -/
def invCX1 : InventoryManager :=
  trackInFlightKits (deductStock invCX0 "ORG" KitClass.first 10).2 "F1" "DST"
    (singleTier KitClass.first 10) 0 5

/-- LANDED event of the C2 counterexample. -/
def evCX : FlightEvent :=
  ⟨"LANDED", "FN1", "F1", "ORG", "DST", ⟨0, 0⟩, ⟨0, 5⟩, ⟨0, 0, 0, 0⟩, "AT1", 100⟩

/-- C2, counterexample. When the destination is at capacity, the arrival step destroys
the batch: the four-pool sum drops from 10 to 0 across processLandedFlight, because the
capacity clamp discards the kits that do not fit. -/
theorem C2_capacity_clamp_breaks_conservation :
    tierTotal invCX0 "ORG" "DST" KitClass.first = 10 ∧
    tierTotal invCX1 "ORG" "DST" KitClass.first = 10 ∧
    tierTotal (processLandedFlight invCX1 evCX) "ORG" "DST" KitClass.first = 0 ∧
    ¬ tierTotal (processLandedFlight invCX1 evCX) "ORG" "DST" KitClass.first =
        tierTotal invCX0 "ORG" "DST" KitClass.first := by
  refine ⟨?_, ?_, ?_, ?_⟩ <;>
    simp [tierTotal, stockValue, getStock, getAirport, lookupAssoc, inFlightTierTotal,
      processingTierTotal, invCX0, invCX1, evCX, aCX, deductStock, trackInFlightKits,
      setInFlight, updateAssoc, processLandedFlight, findInFlight, maxProcessingTimeOf,
      addBatchToStock, clampedAdd, normalizeReady, singleTier, EMPTY_PER_CLASS,
      PerClassAmount.get, PerClassAmount.set, min_def, max_def] <;>
    norm_num

theorem addBatch_singleTier_get (a : Airport) (st : PerClassAmount) (c c' : KitClass)
    (q : ℚ) (hq0 : 0 ≤ q) (hroom : st.get c + q ≤ a.capacity.get c) :
    (addBatchToStock (some a) st (singleTier c q)).get c' =
      st.get c' + (if c' = c then q else 0) := by
  rw [addBatchToStock_some_get, singleTier_get]
  by_cases h : c' = c
  · rw [if_pos h]
    subst h
    unfold clampedAdd
    rw [min_eq_left (by linarith), max_eq_right hq0]
  · rw [if_neg h]
    unfold clampedAdd
    rw [max_eq_left (min_le_left _ _)]

/-- Initial state of the C2 conservation scenario: one batch's worth of stock at ORG,
arbitrary stock at the known destination DST, empty in-flight and in-process pools
(a single batch is being traced). -/
def s0C2 (ost dst : PerClassAmount) (a : Airport) : InventoryManager :=
  ⟨[("ORG", ost), ("DST", dst)], [("DST", a)], [], []⟩

/-- State after the load step of the C2 scenario: deductStock at ORG followed by
trackInFlightKits of the single-tier batch, exactly as the loader performs it. -/
def s1C2 (ost dst : PerClassAmount) (a : Airport) (c : KitClass) (q : ℚ)
    (flightId : String) (arrivalDay arrivalHour : ℤ) : InventoryManager :=
  trackInFlightKits (deductStock (s0C2 ost dst a) "ORG" c q).2 flightId "DST"
    (singleTier c q) arrivalDay arrivalHour

theorem s1C2_eval (ost dst : PerClassAmount) (a : Airport) (c : KitClass) (q : ℚ)
    (flightId : String) (arrivalDay arrivalHour : ℤ) (hqle : q ≤ ost.get c) :
    s1C2 ost dst a c q flightId arrivalDay arrivalHour =
      ⟨[("ORG", ost.set c (ost.get c - q)), ("DST", dst)], [("DST", a)],
       [⟨flightId, "DST", singleTier c q, arrivalDay, arrivalHour⟩], []⟩ := by
  simp [s1C2, s0C2, trackInFlightKits, deductStock, getStock, lookupAssoc, updateAssoc,
    setInFlight, not_lt.mpr hqle]

theorem tierTotal_two_stocks (o d : PerClassAmount) (ap : List (String × Airport))
    (infl : List InFlightKits) (proc : List ProcessingKits) (c : KitClass) :
    tierTotal ⟨[("ORG", o), ("DST", d)], ap, infl, proc⟩ "ORG" "DST" c =
      o.get c + (infl.map fun b => b.kits.get c).sum +
        (proc.map fun p => p.kits.get c).sum + d.get c := by
  simp [tierTotal, stockValue, getStock, lookupAssoc, inFlightTierTotal, processingTierTotal]

/-- C2, amended. For one single-tier batch traced through the cycle on an otherwise
empty ledger, the four-pool sum is conserved at every step — load/track, arrival, and
clock advance — provided the destination has headroom for the batch (destination stock
+ batch ≤ declared capacity); without that headroom the arrival clamp destroys the
overflow (see the counterexample). -/
theorem C2_amended_conservation (ost dst : PerClassAmount) (a : Airport) (q : ℚ)
    (c : KitClass) (ev : FlightEvent) (hq0 : 0 ≤ q) (hqle : q ≤ ost.get c)
    (hroom : dst.get c + q ≤ a.capacity.get c) (hdest : ev.destinationAirport = "DST") :
    tierTotal (s1C2 ost dst a c q ev.flightId ev.arrival.day ev.arrival.hour) "ORG" "DST" c =
      tierTotal (s0C2 ost dst a) "ORG" "DST" c ∧
    tierTotal (processLandedFlight
        (s1C2 ost dst a c q ev.flightId ev.arrival.day ev.arrival.hour) ev) "ORG" "DST" c =
      tierTotal (s0C2 ost dst a) "ORG" "DST" c ∧
    (∀ currentDay currentHour : ℤ,
      tierTotal (processReadyKits (processLandedFlight
          (s1C2 ost dst a c q ev.flightId ev.arrival.day ev.arrival.hour) ev)
          currentDay currentHour) "ORG" "DST" c =
        tierTotal (s0C2 ost dst a) "ORG" "DST" c) := by
  have htt0 : tierTotal (s0C2 ost dst a) "ORG" "DST" c = ost.get c + dst.get c := by
    rw [s0C2, tierTotal_two_stocks]
    simp
  have hs1 := s1C2_eval ost dst a c q ev.flightId ev.arrival.day ev.arrival.hour hqle
  have htt1 : tierTotal (s1C2 ost dst a c q ev.flightId ev.arrival.day ev.arrival.hour)
      "ORG" "DST" c = ost.get c + dst.get c := by
    rw [hs1, tierTotal_two_stocks]
    simp
  refine ⟨htt1.trans htt0.symm, ?_, ?_⟩
  all_goals
    by_cases hhub : a.isHub = true ∨ maxProcessingTimeOf a ≤ 2
  · have hs2 : processLandedFlight
        (s1C2 ost dst a c q ev.flightId ev.arrival.day ev.arrival.hour) ev =
        ⟨[("ORG", ost.set c (ost.get c - q)),
          ("DST", addBatchToStock (some a) dst (singleTier c q))], [("DST", a)], [], []⟩ := by
      rw [hs1]
      simp [processLandedFlight, findInFlight, getAirport, getStock, lookupAssoc, hdest,
        hhub, updateAssoc]
    rw [hs2, tierTotal_two_stocks, htt0]
    simp [addBatch_singleTier_get a dst c c q hq0 hroom]
  · have hs2 : processLandedFlight
        (s1C2 ost dst a c q ev.flightId ev.arrival.day ev.arrival.hour) ev =
        ⟨[("ORG", ost.set c (ost.get c - q)), ("DST", dst)], [("DST", a)], [],
         [⟨"DST", singleTier c q,
           (normalizeReady ev.arrival.day ((ev.arrival.hour : ℚ) + maxProcessingTimeOf a)).1,
           (normalizeReady ev.arrival.day ((ev.arrival.hour : ℚ) + maxProcessingTimeOf a)).2⟩]⟩ := by
      rw [hs1]
      simp [processLandedFlight, findInFlight, getAirport, getStock, lookupAssoc, hdest,
        hhub]
    rw [hs2, tierTotal_two_stocks, htt0]
    simp
  · intro currentDay currentHour
    have hs2 : processLandedFlight
        (s1C2 ost dst a c q ev.flightId ev.arrival.day ev.arrival.hour) ev =
        ⟨[("ORG", ost.set c (ost.get c - q)),
          ("DST", addBatchToStock (some a) dst (singleTier c q))], [("DST", a)], [], []⟩ := by
      rw [hs1]
      simp [processLandedFlight, findInFlight, getAirport, getStock, lookupAssoc, hdest,
        hhub, updateAssoc]
    rw [hs2]
    have hnop : processReadyKits
        ⟨[("ORG", ost.set c (ost.get c - q)),
          ("DST", addBatchToStock (some a) dst (singleTier c q))], [("DST", a)], [], []⟩
        currentDay currentHour =
        ⟨[("ORG", ost.set c (ost.get c - q)),
          ("DST", addBatchToStock (some a) dst (singleTier c q))], [("DST", a)], [], []⟩ := by
      simp [processReadyKits, foldReady]
    rw [hnop, tierTotal_two_stocks, htt0]
    simp [addBatch_singleTier_get a dst c c q hq0 hroom]
  · intro currentDay currentHour
    have hs2 : processLandedFlight
        (s1C2 ost dst a c q ev.flightId ev.arrival.day ev.arrival.hour) ev =
        ⟨[("ORG", ost.set c (ost.get c - q)), ("DST", dst)], [("DST", a)], [],
         [⟨"DST", singleTier c q,
           (normalizeReady ev.arrival.day ((ev.arrival.hour : ℚ) + maxProcessingTimeOf a)).1,
           (normalizeReady ev.arrival.day ((ev.arrival.hour : ℚ) + maxProcessingTimeOf a)).2⟩]⟩ := by
      rw [hs1]
      simp [processLandedFlight, findInFlight, getAirport, getStock, lookupAssoc, hdest,
        hhub]
    rw [hs2]
    by_cases hready : batchIsReady currentDay currentHour
        ⟨"DST", singleTier c q,
          (normalizeReady ev.arrival.day ((ev.arrival.hour : ℚ) + maxProcessingTimeOf a)).1,
          (normalizeReady ev.arrival.day ((ev.arrival.hour : ℚ) + maxProcessingTimeOf a)).2⟩
    · have hfold : processReadyKits
          ⟨[("ORG", ost.set c (ost.get c - q)), ("DST", dst)], [("DST", a)], [],
           [⟨"DST", singleTier c q,
             (normalizeReady ev.arrival.day ((ev.arrival.hour : ℚ) + maxProcessingTimeOf a)).1,
             (normalizeReady ev.arrival.day ((ev.arrival.hour : ℚ) + maxProcessingTimeOf a)).2⟩]⟩
          currentDay currentHour =
          ⟨[("ORG", ost.set c (ost.get c - q)),
            ("DST", addBatchToStock (some a) dst (singleTier c q))], [("DST", a)], [], []⟩ := by
        simp [processReadyKits, foldReady, hready, lookupAssoc, updateAssoc]
      rw [hfold, tierTotal_two_stocks, htt0]
      simp [addBatch_singleTier_get a dst c c q hq0 hroom]
    · have hfold : processReadyKits
          ⟨[("ORG", ost.set c (ost.get c - q)), ("DST", dst)], [("DST", a)], [],
           [⟨"DST", singleTier c q,
             (normalizeReady ev.arrival.day ((ev.arrival.hour : ℚ) + maxProcessingTimeOf a)).1,
             (normalizeReady ev.arrival.day ((ev.arrival.hour : ℚ) + maxProcessingTimeOf a)).2⟩]⟩
          currentDay currentHour =
          ⟨[("ORG", ost.set c (ost.get c - q)), ("DST", dst)], [("DST", a)], [],
           [⟨"DST", singleTier c q,
             (normalizeReady ev.arrival.day ((ev.arrival.hour : ℚ) + maxProcessingTimeOf a)).1,
             (normalizeReady ev.arrival.day ((ev.arrival.hour : ℚ) + maxProcessingTimeOf a)).2⟩]⟩ := by
        simp [processReadyKits, foldReady, hready]
      rw [hfold, tierTotal_two_stocks, htt0]
      simp

/-- Destination airport of the C2 witness (capacity 100, hub). -/
def aW : Airport := ⟨"DST", true, ⟨1, 1, 1, 1⟩, ⟨1, 1, 1, 1⟩, ⟨1, 1, 1, 1⟩, ⟨100, 100, 100, 100⟩⟩

/-- LANDED event of the C2 witness. -/
def evW : FlightEvent :=
  ⟨"LANDED", "FN2", "F2", "ORG", "DST", ⟨0, 0⟩, ⟨0, 5⟩, ⟨0, 0, 0, 0⟩, "AT1", 100⟩

theorem C2_amended_conservation_witness :
    ((0 : ℚ) ≤ 4 ∧ (4 : ℚ) ≤ (⟨10, 0, 0, 0⟩ : PerClassAmount).get KitClass.first ∧
      (⟨1, 0, 0, 0⟩ : PerClassAmount).get KitClass.first + 4 ≤
        aW.capacity.get KitClass.first) ∧
    tierTotal (processLandedFlight
        (s1C2 ⟨10, 0, 0, 0⟩ ⟨1, 0, 0, 0⟩ aW KitClass.first 4 evW.flightId evW.arrival.day
          evW.arrival.hour) evW) "ORG" "DST" KitClass.first =
      tierTotal (s0C2 ⟨10, 0, 0, 0⟩ ⟨1, 0, 0, 0⟩ aW) "ORG" "DST" KitClass.first :=
  ⟨⟨by norm_num, by norm_num [PerClassAmount.get], by norm_num [aW, PerClassAmount.get]⟩,
    (C2_amended_conservation ⟨10, 0, 0, 0⟩ ⟨1, 0, 0, 0⟩ aW 4 KitClass.first evW
      (by norm_num) (by norm_num [PerClassAmount.get])
      (by norm_num [aW, PerClassAmount.get]) (by rfl)).2.1⟩
